import Mathlib

/-!
Atmosphere precomputation core: shallow embedding of `atmosphere/atmosphere.cpp`.

Modelling conventions.

* `double` and `float` values are rationals (`ℚ`).  The functions with the source's names
  evaluate the arithmetic the code writes down exactly.  Next to them stand the `_rounded`
  versions of the spectral functions, in which the result of every arithmetic operation
  passes through a rounding function; with `round64` (round to nearest, ties to even, 53
  significant bits) they compute what the binary64 program computes, as long as no value
  leaves the normal range and every operation is rounded on its own (no fused
  multiply-add).  The single-precision literals of `init` are stored rounded by `round32`.
  In the exact functions a quotient with divisor 0 has the value 0, as in `ℚ`; the binary64
  program gives an infinity or a NaN there, and the rounded versions give `none`.
* `std::vector<double>` and C arrays are `List ℚ`.  A read is `Option`-valued:
  `none` is a read outside the table (undefined behaviour in the C++ program).
* `int` counters are `ℤ` or `ℕ`; `size() - 1` is taken in `size_t` arithmetic.
* The tables and constants of `atmosphere/constants.h` that are not part of the
  unit (`CIE_2_DEG_COLOR_MATCHING_FUNCTIONS`, `XYZ_TO_SRGB`,
  `MAX_LUMINOUS_EFFICACY`) are parameters of the functions that use them.
-/

namespace Atmosphere

/-! ## Constants -/

/-- Modelled from the spec: `kLambdaMin` of `constants.h`, the lower end (nm) of the
sampled range "360–830 nm". -/
def kLambdaMin : ℤ := 360

/-- Modelled from the spec: `kLambdaMax` of `constants.h`, the upper end (nm) of the
sampled range "360–830 nm". -/
def kLambdaMax : ℤ := 830

/-- Modelled from the spec: `kLambdaR` of `constants.h`, reference wavelength "680 nm red". -/
def kLambdaR : ℚ := 680

/-- Modelled from the spec: `kLambdaG` of `constants.h`, reference wavelength "550 nm green". -/
def kLambdaG : ℚ := 550

/-- Modelled from the spec: `kLambdaB` of `constants.h`, reference wavelength "440 nm blue". -/
def kLambdaB : ℚ := 440

/-! ## Table reads -/

/-- Read of a C array at a signed (`int`) index; `none` when the index is outside the table. -/
def readAt (t : List ℚ) (i : ℤ) : Option ℚ :=
  if 0 ≤ i then t[i.toNat]? else none

/-- The `size_t` value of `size() - 1`: it wraps to `2^64 - 1` for an empty vector. -/
def sizeMinusOne (n : ℕ) : ℕ :=
  if n = 0 then 2 ^ 64 - 1 else n - 1

/-! ## Binary floating-point rounding -/

/-- Number of binary digits of `n`; the first argument bounds the recursion. -/
def bitLength : ℕ → ℕ → ℕ
  | 0, _ => 0
  | fuel + 1, n => if n = 0 then 0 else bitLength fuel (n / 2) + 1

/-- The binary exponent `e` of the positive fraction `n / d`: `2^e ≤ n / d < 2^(e+1)`. -/
def binade (n d : ℕ) : ℤ :=
  let e : ℤ := (bitLength (n + 1) n : ℤ) - (bitLength (d + 1) d : ℤ)
  if (if 0 ≤ e then d * 2 ^ e.toNat ≤ n else d ≤ n * 2 ^ (-e).toNat) then e else e - 1

/-- The integer nearest to `n / d`, the even one of the two when `n / d` is half-way. -/
def divRoundHalfEven (n d : ℕ) : ℕ :=
  let f := n / d
  let r := n % d
  if 2 * r < d then f else if d < 2 * r then f + 1 else if f % 2 = 0 then f else f + 1

/-- Rounding to the nearest binary floating-point number with `p` significant bits, ties to
even.  The exponent range is not bounded: overflow, underflow and subnormal numbers are outside
the model. -/
def roundTo (p : ℕ) (q : ℚ) : ℚ :=
  if q = 0 then 0 else
    let n := q.num.natAbs
    let d := q.den
    let t : ℤ := binade n d - ((p : ℤ) - 1)
    let a : ℚ :=
      if 0 ≤ t then ((divRoundHalfEven n (d * 2 ^ t.toNat) * 2 ^ t.toNat : ℕ) : ℚ)
      else (divRoundHalfEven (n * 2 ^ (-t).toNat) d : ℚ) / ((2 ^ (-t).toNat : ℕ) : ℚ)
    if 0 ≤ q then a else -a

/-- Rounding to single precision (`float`, binary32). -/
def round32 (q : ℚ) : ℚ := roundTo 24 q

/-- Rounding to double precision (`double`, binary64). -/
def round64 (q : ℚ) : ℚ := roundTo 53 q

/-! ## Spectral-to-luminance converter -/

/-- `atmosphere::cie_color_matching_function_table_value`, with the table
`CIE_2_DEG_COLOR_MATCHING_FUNCTIONS` as the parameter `CIE`. -/
def cie_color_matching_function_table_value (CIE : List ℚ) (wavelength : ℚ) (column : ℤ) :
    Option ℚ :=
  if wavelength ≤ (kLambdaMin : ℚ) ∨ wavelength ≥ (kLambdaMax : ℚ) then
    some 0
  else
    let u : ℚ := (wavelength - (kLambdaMin : ℚ)) / 5
    let row : ℤ := ⌊u⌋
    let u : ℚ := u - (row : ℚ)
    (readAt CIE (4 * row + column)).bind fun a =>
    (readAt CIE (4 * (row + 1) + column)).bind fun b =>
    some (a * (1 - u) + b * u)

/-- `atmosphere::coeff`, with the matrix `XYZ_TO_SRGB` as the parameter `XYZ`. -/
def coeff (CIE XYZ : List ℚ) (lambda : ℚ) (component : ℤ) : Option ℚ :=
  (cie_color_matching_function_table_value CIE lambda 1).bind fun x =>
  (cie_color_matching_function_table_value CIE lambda 2).bind fun y =>
  (cie_color_matching_function_table_value CIE lambda 3).bind fun z =>
  (readAt XYZ (component * 3 + 0)).bind fun m0 =>
  (readAt XYZ (component * 3 + 1)).bind fun m1 =>
  (readAt XYZ (component * 3 + 2)).bind fun m2 =>
  some (m0 * x + m1 * y + m2 * z)

/-- The `for` loop of `atmosphere::interpolate`, from counter value `i`, with the loop
bound `bound = wavelengths.size() - 1`.  The first argument bounds the number of
condition tests; running out of it gives `none`. -/
def interpolate_loop (wavelengths wavelength_function : List ℚ) (wavelength : ℚ)
    (bound : ℕ) : ℕ → ℕ → Option ℚ
  | 0, _ => none
  | fuel + 1, i =>
    if i < bound then
      wavelengths[i + 1]?.bind fun w1 =>
      if wavelength < w1 then
        wavelengths[i]?.bind fun w0 =>
        wavelength_function[i]?.bind fun v0 =>
        wavelength_function[i + 1]?.bind fun v1 =>
        let u : ℚ := (wavelength - w0) / (w1 - w0)
        some (v0 * (1 - u) + v1 * u)
      else
        interpolate_loop wavelengths wavelength_function wavelength bound fuel (i + 1)
    else
      wavelength_function[sizeMinusOne wavelength_function.length]?

/-- `atmosphere::interpolate`. -/
def interpolate (wavelengths wavelength_function : List ℚ) (wavelength : ℚ) : Option ℚ :=
  wavelengths[0]?.bind fun w0 =>
  if wavelength < w0 then
    wavelength_function[0]?
  else
    interpolate_loop wavelengths wavelength_function wavelength
      (sizeMinusOne wavelengths.length) (sizeMinusOne wavelengths.length + 1) 0

/-- The `for` loop of `atmosphere::compute_spectral_radiance_to_luminance_factors`, from
counter value `lambda` with the running sums `k = (k_r, k_g, k_b)`.  The first argument
bounds the number of condition tests; running out of it gives `none`.  `pow` with the
integral exponents the program passes is the integer power. -/
def compute_spectral_radiance_to_luminance_factors_loop (CIE XYZ : List ℚ)
    (wavelengths solar_irradiance : List ℚ) (lambda_power : ℤ) (solar_r solar_g solar_b : ℚ)
    (dlambda : ℤ) : ℕ → ℤ → ℚ × ℚ × ℚ → Option (ℚ × ℚ × ℚ)
  | 0, _, _ => none
  | fuel + 1, lambda, k =>
    if lambda < kLambdaMax then
      (cie_color_matching_function_table_value CIE (lambda : ℚ) 1).bind fun x_bar =>
      (cie_color_matching_function_table_value CIE (lambda : ℚ) 2).bind fun y_bar =>
      (cie_color_matching_function_table_value CIE (lambda : ℚ) 3).bind fun z_bar =>
      (readAt XYZ 0).bind fun m0 =>
      (readAt XYZ 1).bind fun m1 =>
      (readAt XYZ 2).bind fun m2 =>
      (readAt XYZ 3).bind fun m3 =>
      (readAt XYZ 4).bind fun m4 =>
      (readAt XYZ 5).bind fun m5 =>
      (readAt XYZ 6).bind fun m6 =>
      (readAt XYZ 7).bind fun m7 =>
      (readAt XYZ 8).bind fun m8 =>
      let r_bar : ℚ := m0 * x_bar + m1 * y_bar + m2 * z_bar
      let g_bar : ℚ := m3 * x_bar + m4 * y_bar + m5 * z_bar
      let b_bar : ℚ := m6 * x_bar + m7 * y_bar + m8 * z_bar
      (interpolate wavelengths solar_irradiance (lambda : ℚ)).bind fun irradiance =>
      compute_spectral_radiance_to_luminance_factors_loop CIE XYZ wavelengths solar_irradiance
        lambda_power solar_r solar_g solar_b dlambda fuel (lambda + dlambda)
        (k.1 + r_bar * irradiance / solar_r * ((lambda : ℚ) / kLambdaR) ^ lambda_power,
         k.2.1 + g_bar * irradiance / solar_g * ((lambda : ℚ) / kLambdaG) ^ lambda_power,
         k.2.2 + b_bar * irradiance / solar_b * ((lambda : ℚ) / kLambdaB) ^ lambda_power)
    else
      some k

/-- `atmosphere::compute_spectral_radiance_to_luminance_factors`; the three output
references are returned as the triple `(k_r, k_g, k_b)`.  `MAX_LUMINOUS_EFFICACY` is the
parameter `maxEff`. -/
def compute_spectral_radiance_to_luminance_factors (CIE XYZ : List ℚ) (maxEff : ℚ)
    (wavelengths solar_irradiance : List ℚ) (lambda_power : ℤ) : Option (ℚ × ℚ × ℚ) :=
  (interpolate wavelengths solar_irradiance kLambdaR).bind fun solar_r =>
  (interpolate wavelengths solar_irradiance kLambdaG).bind fun solar_g =>
  (interpolate wavelengths solar_irradiance kLambdaB).bind fun solar_b =>
  let dlambda : ℤ := 1
  (compute_spectral_radiance_to_luminance_factors_loop CIE XYZ wavelengths solar_irradiance
      lambda_power solar_r solar_g solar_b dlambda
      ((kLambdaMax - kLambdaMin).toNat + 1) kLambdaMin (0, 0, 0)).bind fun k =>
  some (k.1 * (maxEff * (dlambda : ℚ)), k.2.1 * (maxEff * (dlambda : ℚ)),
        k.2.2 * (maxEff * (dlambda : ℚ)))

/-! ## Spectral-to-luminance converter in rounded arithmetic

The same functions with the result of every arithmetic operation passed through the
rounding function `fl`.  A division by zero gives `none` here (the binary64 result is an
infinity or a NaN, outside the model).  `pow` is the integer power rounded once; with the
exponent 0 its value is 1 in any case. -/

/-- `atmosphere::cie_color_matching_function_table_value`, every operation rounded by `fl`. -/
def cie_color_matching_function_table_value_rounded (fl : ℚ → ℚ) (CIE : List ℚ)
    (wavelength : ℚ) (column : ℤ) : Option ℚ :=
  if wavelength ≤ (kLambdaMin : ℚ) ∨ wavelength ≥ (kLambdaMax : ℚ) then
    some 0
  else
    let u : ℚ := fl (fl (wavelength - (kLambdaMin : ℚ)) / 5)
    let row : ℤ := ⌊u⌋
    let u : ℚ := fl (u - (row : ℚ))
    (readAt CIE (4 * row + column)).bind fun a =>
    (readAt CIE (4 * (row + 1) + column)).bind fun b =>
    some (fl (fl (a * fl (1 - u)) + fl (b * u)))

/-- The `for` loop of `atmosphere::interpolate`, every operation rounded by `fl`. -/
def interpolate_loop_rounded (fl : ℚ → ℚ) (wavelengths wavelength_function : List ℚ)
    (wavelength : ℚ) (bound : ℕ) : ℕ → ℕ → Option ℚ
  | 0, _ => none
  | fuel + 1, i =>
    if i < bound then
      wavelengths[i + 1]?.bind fun w1 =>
      if wavelength < w1 then
        wavelengths[i]?.bind fun w0 =>
        wavelength_function[i]?.bind fun v0 =>
        wavelength_function[i + 1]?.bind fun v1 =>
        if fl (w1 - w0) = 0 then none else
        let u : ℚ := fl (fl (wavelength - w0) / fl (w1 - w0))
        some (fl (fl (v0 * fl (1 - u)) + fl (v1 * u)))
      else
        interpolate_loop_rounded fl wavelengths wavelength_function wavelength bound fuel (i + 1)
    else
      wavelength_function[sizeMinusOne wavelength_function.length]?

/-- `atmosphere::interpolate`, every operation rounded by `fl`. -/
def interpolate_rounded (fl : ℚ → ℚ) (wavelengths wavelength_function : List ℚ)
    (wavelength : ℚ) : Option ℚ :=
  wavelengths[0]?.bind fun w0 =>
  if wavelength < w0 then
    wavelength_function[0]?
  else
    interpolate_loop_rounded fl wavelengths wavelength_function wavelength
      (sizeMinusOne wavelengths.length) (sizeMinusOne wavelengths.length + 1) 0

/-- The amount added to one running sum in an iteration of the loop of
`atmosphere::compute_spectral_radiance_to_luminance_factors`, every operation rounded by `fl`:
`bar * irradiance / solar * pow(lambda / ref, lambda_power)`, where `bar` is the row of
`XYZ_TO_SRGB` that starts at index `i` applied to the three colour-matching values. -/
def factor_term_rounded (fl : ℚ → ℚ) (XYZ : List ℚ) (i : ℤ) (x_bar y_bar z_bar : ℚ)
    (irradiance solar : ℚ) (lambda : ℤ) (ref : ℚ) (lambda_power : ℤ) : Option ℚ :=
  (readAt XYZ i).bind fun m0 =>
  (readAt XYZ (i + 1)).bind fun m1 =>
  (readAt XYZ (i + 2)).bind fun m2 =>
  if solar = 0 then none else
  let bar : ℚ := fl (fl (fl (m0 * x_bar) + fl (m1 * y_bar)) + fl (m2 * z_bar))
  some (fl (fl (fl (bar * irradiance) / solar) * fl (fl ((lambda : ℚ) / ref) ^ lambda_power)))

/-- The body of the loop of `atmosphere::compute_spectral_radiance_to_luminance_factors`,
every operation rounded by `fl`: the running sums after the iteration at `lambda`. -/
def factors_step_rounded (fl : ℚ → ℚ) (CIE XYZ : List ℚ)
    (wavelengths solar_irradiance : List ℚ) (lambda_power : ℤ) (solar_r solar_g solar_b : ℚ)
    (lambda : ℤ) (k : ℚ × ℚ × ℚ) : Option (ℚ × ℚ × ℚ) :=
  (cie_color_matching_function_table_value_rounded fl CIE (lambda : ℚ) 1).bind fun x_bar =>
  (cie_color_matching_function_table_value_rounded fl CIE (lambda : ℚ) 2).bind fun y_bar =>
  (cie_color_matching_function_table_value_rounded fl CIE (lambda : ℚ) 3).bind fun z_bar =>
  (interpolate_rounded fl wavelengths solar_irradiance (lambda : ℚ)).bind fun irradiance =>
  (factor_term_rounded fl XYZ 0 x_bar y_bar z_bar irradiance solar_r lambda kLambdaR
    lambda_power).bind fun dr =>
  (factor_term_rounded fl XYZ 3 x_bar y_bar z_bar irradiance solar_g lambda kLambdaG
    lambda_power).bind fun dg =>
  (factor_term_rounded fl XYZ 6 x_bar y_bar z_bar irradiance solar_b lambda kLambdaB
    lambda_power).bind fun db =>
  some (fl (k.1 + dr), fl (k.2.1 + dg), fl (k.2.2 + db))

/-- The `for` loop of `atmosphere::compute_spectral_radiance_to_luminance_factors`, every
operation rounded by `fl`.  The first argument bounds the number of condition tests. -/
def factors_loop_rounded (fl : ℚ → ℚ) (CIE XYZ : List ℚ)
    (wavelengths solar_irradiance : List ℚ) (lambda_power : ℤ) (solar_r solar_g solar_b : ℚ)
    (dlambda : ℤ) : ℕ → ℤ → ℚ × ℚ × ℚ → Option (ℚ × ℚ × ℚ)
  | 0, _, _ => none
  | fuel + 1, lambda, k =>
    if lambda < kLambdaMax then
      (factors_step_rounded fl CIE XYZ wavelengths solar_irradiance lambda_power
        solar_r solar_g solar_b lambda k).bind fun k =>
      factors_loop_rounded fl CIE XYZ wavelengths solar_irradiance lambda_power
        solar_r solar_g solar_b dlambda fuel (lambda + dlambda) k
    else
      some k

/-- `atmosphere::compute_spectral_radiance_to_luminance_factors`, every operation rounded by
`fl`. -/
def compute_spectral_radiance_to_luminance_factors_rounded (fl : ℚ → ℚ) (CIE XYZ : List ℚ)
    (maxEff : ℚ) (wavelengths solar_irradiance : List ℚ) (lambda_power : ℤ) :
    Option (ℚ × ℚ × ℚ) :=
  (interpolate_rounded fl wavelengths solar_irradiance kLambdaR).bind fun solar_r =>
  (interpolate_rounded fl wavelengths solar_irradiance kLambdaG).bind fun solar_g =>
  (interpolate_rounded fl wavelengths solar_irradiance kLambdaB).bind fun solar_b =>
  let dlambda : ℤ := 1
  (factors_loop_rounded fl CIE XYZ wavelengths solar_irradiance
      lambda_power solar_r solar_g solar_b dlambda
      ((kLambdaMax - kLambdaMin).toNat + 1) kLambdaMin (0, 0, 0)).bind fun k =>
  some (fl (k.1 * fl (maxEff * (dlambda : ℚ))), fl (k.2.1 * fl (maxEff * (dlambda : ℚ))),
        fl (k.2.2 * fl (maxEff * (dlambda : ℚ))))

/-! ## Compute kernel binding -/

/-- Modelled from the spec: the result codes of `atmosphere/atmosphere.h` that the unit
returns. -/
inductive atmosphere_error_t where
  | ATMO_NO_ERR
  | ATMO_INIT_FUNC_ERR
  deriving DecidableEq, Repr

/-- Result of a driver call, as far as the unit tests it. -/
inductive CUresult where
  | CUDA_SUCCESS
  | CUDA_ERROR_NOT_FOUND
  deriving DecidableEq, Repr

/-- A kernel handle. -/
abbrev CUfunction := ℕ

/-- A loaded kernel module: the lookup from entry-point name to the kernel it exports. -/
abbrev CUmodule := String → Option CUfunction

/-- The driver call `cuModuleGetFunction(hfunc, module, name)`: on success the handle cell
receives the kernel.  What a failed call leaves in the cell is up to the driver; here the cell
keeps its value, and no result below speaks about the cell of a failed call.  (`none` in a
cell: never bound.) -/
def cuModuleGetFunction (hfunc : Option CUfunction) (cuda_module : CUmodule) (name : String) :
    CUresult × Option CUfunction :=
  match cuda_module name with
  | some f => (CUresult.CUDA_SUCCESS, some f)
  | none => (CUresult.CUDA_ERROR_NOT_FOUND, hfunc)

/-! ## Data model -/

/-- Modelled from the spec: `DensityProfileLayer` of `atmosphere/atmosphere.h`, "constructed
with five numeric parameters (width, exp_term, exp_scale, linear_term, constant_term)", in
this order. -/
structure DensityProfileLayer where
  width : ℚ
  exp_term : ℚ
  exp_scale : ℚ
  linear_term : ℚ
  constant_term : ℚ
  deriving DecidableEq

/-- The texture store object, as far as the unit touches it: the precision it was built with. -/
structure TextureBuffer where
  half_precision : Bool
  deriving DecidableEq

/-- One recorded call of `atmosphere::precompute`: which pointer arguments were non-null
and the two value arguments. -/
structure PrecomputeCall where
  buffer : Option TextureBuffer
  lambdas : Option (List ℚ)
  luminance_from_radiance : Option (List ℚ)
  blend : Bool
  num_scattering_orders : ℤ
  deriving DecidableEq

/-- The members of an `atmosphere` object that the unit reads or writes.  An unassigned
scalar or pointer member is `none`.  `precompute_log` records the calls of `precompute`
made on the object, latest last. -/
structure atmosphere where
  transmittance_function : Option CUfunction
  direct_irradiance_function : Option CUfunction
  indirect_irradiance_function : Option CUfunction
  multiple_scattering_function : Option CUfunction
  scattering_density_function : Option CUfunction
  single_scattering_function : Option CUfunction
  m_absorption_density : List DensityProfileLayer
  m_wave_lengths : List ℚ
  m_solar_irradiance : List ℚ
  m_rayleigh_scattering : List ℚ
  m_mie_scattering : List ℚ
  m_mie_extinction : List ℚ
  m_absorption_extinction : List ℚ
  m_ground_albedo : List ℚ
  m_half_precision : Option Bool
  m_combine_scattering_textures : Option Bool
  m_sun_angular_radius : Option ℚ
  m_bottom_radius : Option ℚ
  m_top_radius : Option ℚ
  m_rayleigh_density : Option DensityProfileLayer
  m_mie_density : Option DensityProfileLayer
  m_mie_phase_function_g : Option ℚ
  m_max_sun_zenith_angle : Option ℚ
  m_length_unit_in_meters : Option ℚ
  m_texture_buffer : Option TextureBuffer
  precompute_log : List PrecomputeCall

/-- The constructor `atmosphere::atmosphere()`: six handle cells are allocated, nothing is
bound or assigned yet, and every vector member is empty. -/
def atmosphere.new : atmosphere where
  transmittance_function := none
  direct_irradiance_function := none
  indirect_irradiance_function := none
  multiple_scattering_function := none
  scattering_density_function := none
  single_scattering_function := none
  m_absorption_density := []
  m_wave_lengths := []
  m_solar_irradiance := []
  m_rayleigh_scattering := []
  m_mie_scattering := []
  m_mie_extinction := []
  m_absorption_extinction := []
  m_ground_albedo := []
  m_half_precision := none
  m_combine_scattering_textures := none
  m_sun_angular_radius := none
  m_bottom_radius := none
  m_top_radius := none
  m_rayleigh_density := none
  m_mie_density := none
  m_mie_phase_function_g := none
  m_max_sun_zenith_angle := none
  m_length_unit_in_meters := none
  m_texture_buffer := none
  precompute_log := []

/-- `atmosphere::init_functions`. -/
def init_functions (self : atmosphere) (cuda_module : CUmodule) :
    atmosphere_error_t × atmosphere :=
  let r := cuModuleGetFunction self.transmittance_function cuda_module "calculate_transmittance"
  let self := { self with transmittance_function := r.2 }
  if r.1 ≠ CUresult.CUDA_SUCCESS then (atmosphere_error_t.ATMO_INIT_FUNC_ERR, self) else
  let r := cuModuleGetFunction self.direct_irradiance_function cuda_module
    "calculate_direct_irradiance"
  let self := { self with direct_irradiance_function := r.2 }
  if r.1 ≠ CUresult.CUDA_SUCCESS then (atmosphere_error_t.ATMO_INIT_FUNC_ERR, self) else
  let r := cuModuleGetFunction self.indirect_irradiance_function cuda_module
    "calculate_indirect_irradiance"
  let self := { self with indirect_irradiance_function := r.2 }
  if r.1 ≠ CUresult.CUDA_SUCCESS then (atmosphere_error_t.ATMO_INIT_FUNC_ERR, self) else
  let r := cuModuleGetFunction self.multiple_scattering_function cuda_module
    "calculate_multiple_scattering"
  let self := { self with multiple_scattering_function := r.2 }
  if r.1 ≠ CUresult.CUDA_SUCCESS then (atmosphere_error_t.ATMO_INIT_FUNC_ERR, self) else
  let r := cuModuleGetFunction self.scattering_density_function cuda_module
    "calculate__scattering_density"
  let self := { self with scattering_density_function := r.2 }
  if r.1 ≠ CUresult.CUDA_SUCCESS then (atmosphere_error_t.ATMO_INIT_FUNC_ERR, self) else
  let r := cuModuleGetFunction self.single_scattering_function cuda_module
    "calculate_single_scattering"
  let self := { self with single_scattering_function := r.2 }
  if r.1 ≠ CUresult.CUDA_SUCCESS then (atmosphere_error_t.ATMO_INIT_FUNC_ERR, self) else
  (atmosphere_error_t.ATMO_NO_ERR, self)

/-! ## Initialisation -/

/-- `atmosphere::precompute`: the body only prints and returns `ATMO_NO_ERR`; the call
is recorded in `precompute_log`. -/
def precompute (self : atmosphere) (buffer : Option TextureBuffer) (lambdas : Option (List ℚ))
    (luminance_from_radiance : Option (List ℚ)) (blend : Bool) (num_scattering_orders : ℤ) :
    atmosphere_error_t × atmosphere :=
  (atmosphere_error_t.ATMO_NO_ERR,
   { self with precompute_log := self.precompute_log ++
      [{ buffer := buffer, lambdas := lambdas,
         luminance_from_radiance := luminance_from_radiance, blend := blend,
         num_scattering_orders := num_scattering_orders }] })

/-- The local table `kSolarIrradiance[48]` of `atmosphere::init`. -/
def kSolarIrradiance : List ℚ := [
  1.11776, 1.14259, 1.01249, 1.14716, 1.72765, 1.73054, 1.6887, 1.61253,
  1.91198, 2.03474, 2.02042, 2.02212, 1.93377, 1.95809, 1.91686, 1.8298,
  1.8685, 1.8931, 1.85149, 1.8504, 1.8341, 1.8345, 1.8147, 1.78158, 1.7533,
  1.6965, 1.68194, 1.64654, 1.6048, 1.52143, 1.55622, 1.5113, 1.474, 1.4482,
  1.41018, 1.36775, 1.34188, 1.31429, 1.28303, 1.26758, 1.2367, 1.2082,
  1.18737, 1.14683, 1.12362, 1.1058, 1.07124, 1.04992]

/-- The local table `kOzoneCrossSection[48]` of `atmosphere::init`. -/
def kOzoneCrossSection : List ℚ := [
  1.18e-27, 2.182e-28, 2.818e-28, 6.636e-28, 1.527e-27, 2.763e-27, 5.52e-27,
  8.451e-27, 1.582e-26, 2.316e-26, 3.669e-26, 4.924e-26, 7.752e-26, 9.016e-26,
  1.48e-25, 1.602e-25, 2.139e-25, 2.755e-25, 3.091e-25, 3.5e-25, 4.266e-25,
  4.672e-25, 4.398e-25, 4.701e-25, 5.019e-25, 4.305e-25, 3.74e-25, 3.215e-25,
  2.662e-25, 2.238e-25, 1.852e-25, 1.473e-25, 1.209e-25, 9.423e-26, 7.455e-26,
  6.566e-26, 5.105e-26, 4.15e-26, 4.228e-26, 3.237e-26, 2.451e-26, 2.801e-26,
  2.534e-26, 1.624e-26, 1.465e-26, 2.078e-26, 1.383e-26, 7.105e-27]

def kPi : ℚ := 3.1415926
def kDobsonUnit : ℚ := 2.687e20
def kMaxOzoneNumberDensity : ℚ := 300.0 * kDobsonUnit / 15000.0
def kConstantSolarIrradiance : ℚ := 1.5
def kTopRadius : ℚ := 6420000.0
def kRayleigh : ℚ := 1.24062e-6
def kRayleighScaleHeight : ℚ := 8000.0
def kMieScaleHeight : ℚ := 1200.0
def kMieAngstromAlpha : ℤ := 0
def kMieAngstromBeta : ℚ := 5.328e-3
def kMieSingleScatteringAlbedo : ℚ := 0.9
def kGroundAlbedo : ℚ := 0.1

/-- The sample loop of `atmosphere::init` (`for (int l = kLambdaMin; l <= kLambdaMax;
l += 10)`), from counter value `l`.  The first argument bounds the number of condition
tests; running out of it gives `none`, and so does a read outside a constant table. -/
def init_loop (use_constant_solar_spectrum_ use_ozone_ : Bool) :
    ℕ → ℤ → atmosphere → Option atmosphere
  | 0, _, _ => none
  | fuel + 1, l, self =>
    if l ≤ kLambdaMax then
      let lambda : ℚ := (l : ℚ) * 1e-3
      let mie : ℚ := kMieAngstromBeta / kMieScaleHeight * lambda ^ (-kMieAngstromAlpha)
      (if use_constant_solar_spectrum_ then some kConstantSolarIrradiance
        else readAt kSolarIrradiance ((l - kLambdaMin).tdiv 10)).bind fun irradiance =>
      (if use_ozone_ then
          (readAt kOzoneCrossSection ((l - kLambdaMin).tdiv 10)).bind fun x =>
            some (kMaxOzoneNumberDensity * x)
        else some 0).bind fun absorption =>
      init_loop use_constant_solar_spectrum_ use_ozone_ fuel (l + 10)
        { self with
          m_wave_lengths := self.m_wave_lengths ++ [(l : ℚ)]
          m_solar_irradiance := self.m_solar_irradiance ++ [irradiance]
          m_rayleigh_scattering :=
            self.m_rayleigh_scattering ++ [kRayleigh * lambda ^ (-4 : ℤ)]
          m_mie_scattering := self.m_mie_scattering ++ [mie * kMieSingleScatteringAlbedo]
          m_mie_extinction := self.m_mie_extinction ++ [mie]
          m_absorption_extinction := self.m_absorption_extinction ++ [absorption]
          m_ground_albedo := self.m_ground_albedo ++ [kGroundAlbedo] }
    else
      some self

/-- The body of `atmosphere::init` with the operation it calls as `precompute` abstracted as
`pre`, and the value of `num_precomputed_wavelengths()` (declared in `atmosphere.h`) as a
parameter.  The result is `none` only when a constant table is read out of range.  The
parameters of the two ozone layers are single-precision expressions (`1.0f / 15000.0f`, …):
the quotients are stored rounded to single precision. -/
def init_with
    (pre : atmosphere → Option TextureBuffer → Option (List ℚ) → Option (List ℚ) → Bool → ℤ →
      atmosphere_error_t × atmosphere)
    (num_precomputed_wavelengths : ℤ) (self : atmosphere)
    (use_constant_solar_spectrum_ use_ozone_ : Bool) : Option (atmosphere_error_t × atmosphere) :=
  let self := { self with m_absorption_density := self.m_absorption_density ++
    [DensityProfileLayer.mk 25000.0 0.0 0.0 (round32 (1.0 / 15000.0))
      (round32 (-2.0 / 3.0))] }
  let self := { self with m_absorption_density := self.m_absorption_density ++
    [DensityProfileLayer.mk 0.0 0.0 0.0 (round32 (-1.0 / 15000.0)) (round32 (8.0 / 3.0))] }
  (init_loop use_constant_solar_spectrum_ use_ozone_
      (((kLambdaMax - kLambdaMin) / 10).toNat + 2) kLambdaMin self).bind fun self =>
  let self := { self with
    m_half_precision := some false
    m_combine_scattering_textures := some true
    m_sun_angular_radius := some (0.00935 / 2.0)
    m_bottom_radius := some 6360000.0
    m_top_radius := some 6420000.0
    m_rayleigh_density :=
      some (DensityProfileLayer.mk 0.0 1.0 (-1.0 / kRayleighScaleHeight) 0.0 0.0)
    m_mie_density := some (DensityProfileLayer.mk 0.0 1.0 (-1.0 / kMieScaleHeight) 0.0 0.0)
    m_mie_phase_function_g := some 0.8
    m_max_sun_zenith_angle := some (102.0 / 180.0 * kPi)
    m_length_unit_in_meters := some 1000.0 }
  let num_scattering_orders : ℤ := 4
  let self := { self with m_texture_buffer := self.m_half_precision.map TextureBuffer.mk }
  if num_precomputed_wavelengths ≤ 3 then
    let r := pre self self.m_texture_buffer none none false num_scattering_orders
    some (atmosphere_error_t.ATMO_NO_ERR, r.2)
  else
    some (atmosphere_error_t.ATMO_NO_ERR, self)

/-- `atmosphere::init`. -/
def init (num_precomputed_wavelengths : ℤ) (self : atmosphere)
    (use_constant_solar_spectrum_ use_ozone_ : Bool) : Option (atmosphere_error_t × atmosphere) :=
  init_with precompute num_precomputed_wavelengths self use_constant_solar_spectrum_ use_ozone_

/-! ## Luminance factors of an object -/

/-- `atmosphere::sky_sun_radiance_to_luminance`; the two output references are returned as the
pair (sky, sun).  The narrowing cast `(float)` applied to each component is the parameter
`narrow`, and the value of `num_precomputed_wavelengths()` is a parameter as in `init`. -/
def sky_sun_radiance_to_luminance (CIE XYZ : List ℚ) (maxEff : ℚ) (narrow : ℚ → ℚ)
    (num_precomputed_wavelengths : ℤ) (self : atmosphere) :
    Option ((ℚ × ℚ × ℚ) × (ℚ × ℚ × ℚ)) :=
  let precompute_illuminance : Bool := decide (num_precomputed_wavelengths > 3)
  (if precompute_illuminance then some (maxEff, maxEff, maxEff)
    else compute_spectral_radiance_to_luminance_factors CIE XYZ maxEff self.m_wave_lengths
      self.m_solar_irradiance (-3)).bind fun sky =>
  (compute_spectral_radiance_to_luminance_factors CIE XYZ maxEff self.m_wave_lengths
    self.m_solar_irradiance 0).bind fun sun =>
  some ((narrow sky.1, narrow sky.2.1, narrow sky.2.2),
        (narrow sun.1, narrow sun.2.1, narrow sun.2.2))

/-- Successive calls of `init` on the same object, one call per pair of flags
`(use_constant_solar_spectrum_, use_ozone_)` in the list. -/
def init_calls (num_precomputed_wavelengths : ℤ) : List (Bool × Bool) → atmosphere →
    Option atmosphere
  | [], self => some self
  | flags :: rest, self =>
    (init num_precomputed_wavelengths self flags.1 flags.2).bind fun r =>
    init_calls num_precomputed_wavelengths rest r.2

/-! ## Density profile -/

/-- Modelled from the spec: the density of a layer at altitude `h`, which the external
kernels evaluate and this unit does not: "density(h) = exp_term * exp(exp_scale * h) +
linear_term * h + constant_term, clamped to [0,1]".  The exponential function is the
parameter `exp`. -/
def density (exp : ℚ → ℚ) (layer : DensityProfileLayer) (h : ℚ) : ℚ :=
  max 0 (min 1 (layer.exp_term * exp (layer.exp_scale * h) + layer.linear_term * h +
    layer.constant_term))

/-! ## Closed form of the sample loop -/

/-- The counter value of the sample loop of `init` in its iteration number `j` (from 0). -/
def sampleLambda (j : ℕ) : ℤ := kLambdaMin + 10 * (j : ℤ)

/-- The object after the sample loop of `init` has appended the samples with table indices
`k, …, k + r - 1` (used to state what the loop computes). -/
def withSamples (use_constant_solar_spectrum_ use_ozone_ : Bool) (k r : ℕ) (self : atmosphere) :
    atmosphere :=
  { self with
    m_wave_lengths := self.m_wave_lengths ++
      List.map (fun j : ℕ => ((sampleLambda j : ℤ) : ℚ)) (List.range' k r)
    m_solar_irradiance := self.m_solar_irradiance ++
      List.map (fun j : ℕ => if use_constant_solar_spectrum_ then kConstantSolarIrradiance
        else kSolarIrradiance.getD j 0) (List.range' k r)
    m_rayleigh_scattering := self.m_rayleigh_scattering ++
      List.map (fun j : ℕ => kRayleigh * (((sampleLambda j : ℤ) : ℚ) * 1e-3) ^ (-4 : ℤ))
        (List.range' k r)
    m_mie_scattering := self.m_mie_scattering ++
      List.map (fun j : ℕ => kMieAngstromBeta / kMieScaleHeight *
        (((sampleLambda j : ℤ) : ℚ) * 1e-3) ^ (-kMieAngstromAlpha) * kMieSingleScatteringAlbedo)
        (List.range' k r)
    m_mie_extinction := self.m_mie_extinction ++
      List.map (fun j : ℕ => kMieAngstromBeta / kMieScaleHeight *
        (((sampleLambda j : ℤ) : ℚ) * 1e-3) ^ (-kMieAngstromAlpha)) (List.range' k r)
    m_absorption_extinction := self.m_absorption_extinction ++
      List.map (fun j : ℕ => if use_ozone_ then
        kMaxOzoneNumberDensity * kOzoneCrossSection.getD j 0 else 0) (List.range' k r)
    m_ground_albedo := self.m_ground_albedo ++
      List.map (fun _ : ℕ => kGroundAlbedo) (List.range' k r) }

/-! ## Entry points and handles, by position -/

/-- The entry-point names in the order in which `init_functions` looks them up. -/
def entryPoint : ℕ → String
  | 0 => "calculate_transmittance"
  | 1 => "calculate_direct_irradiance"
  | 2 => "calculate_indirect_irradiance"
  | 3 => "calculate_multiple_scattering"
  | 4 => "calculate__scattering_density"
  | _ => "calculate_single_scattering"

/-- The six kernel handle cells of an object, in the same order. -/
def handle (self : atmosphere) : ℕ → Option CUfunction
  | 0 => self.transmittance_function
  | 1 => self.direct_irradiance_function
  | 2 => self.indirect_irradiance_function
  | 3 => self.multiple_scattering_function
  | 4 => self.scattering_density_function
  | _ => self.single_scattering_function

/-! ## Total versions of the lookups (used to state the integration formula) -/

/-- The colour-matching value, 0 where the lookup would read outside the table. -/
def cieD (CIE : List ℚ) (x : ℚ) (c : ℤ) : ℚ :=
  (cie_color_matching_function_table_value CIE x c).getD 0

/-- The matrix entry, 0 outside the matrix. -/
def xyzD (XYZ : List ℚ) (i : ℤ) : ℚ := (readAt XYZ i).getD 0

/-- The value of `coeff`, 0 where it would read outside a table. -/
def coeffD (CIE XYZ : List ℚ) (x : ℚ) (c : ℤ) : ℚ := (coeff CIE XYZ x c).getD 0

/-- The value of `interpolate`, 0 where it would read outside a table. -/
def interpolateD (w v : List ℚ) (x : ℚ) : ℚ := (interpolate w v x).getD 0

/-- One term of the sum computed by the loop of
`compute_spectral_radiance_to_luminance_factors`, for channel `c` with reference wavelength
`ref` and reference irradiance `solar`. -/
def factorTerm (CIE XYZ w v : List ℚ) (p : ℤ) (c : ℤ) (ref solar : ℚ) (l : ℚ) : ℚ :=
  coeffD CIE XYZ l c * interpolateD w v l / solar * (l / ref) ^ p

/-! ## Sample inputs -/

/-- A 95-row, 4-column table whose entry at index `i` is `i`, so that a value identifies
the index it was read from. -/
def rampTable : List ℚ := List.map (fun i : ℕ => (i : ℚ)) (List.range 380)

/-- A kernel module that exports `calculate_transmittance` and
`calculate_direct_irradiance` (as kernels 7 and 8) and nothing else. -/
def twoKernelModule : CUmodule := fun name =>
  if name = "calculate_transmittance" then some 7
  else if name = "calculate_direct_irradiance" then some 8
  else none

/-- A kernel module that exports every name, as kernel 1. -/
def fullModule : CUmodule := fun _ => some 1

/-- A 3×3 matrix in row-major order (the XYZ to sRGB matrix of IEC 61966-2-1), as a sample
value of the parameter `XYZ`. -/
def sampleXYZ : List ℚ :=
  [3.2406, -1.5372, -0.4986, -0.9689, 1.8758, 0.0415, 0.0557, -0.2040, 1.0570]

/-- The call `precompute(m_texture_buffer, nullptr, nullptr, false, 4)` as it is recorded. -/
def rgbPrecomputeCall : PrecomputeCall where
  buffer := some (TextureBuffer.mk false)
  lambdas := none
  luminance_from_radiance := none
  blend := false
  num_scattering_orders := 4

/-- A 95-row, 4-column table that is 0 everywhere except for the entry 1 in row 0, column 1
(a colour-matching function that is a single spike at 360 nm). -/
def spikeTable : List ℚ := 0 :: 1 :: List.replicate 378 0

/-- The 3×3 identity matrix in row-major order, as a sample value of the parameter `XYZ`. -/
def identityXYZ : List ℚ := [1, 0, 0, 0, 1, 0, 0, 0, 1]

/-- An object whose two spectral tables are the table [(0,10),(10,20)]. -/
def twoSampleObject : atmosphere :=
  { atmosphere.new with m_wave_lengths := [0, 10], m_solar_irradiance := [10, 20] }

/-! ## Auxiliary facts -/

theorem sizeMinusOne_succ (n : ℕ) : sizeMinusOne (n + 1) = n := by
  simp [sizeMinusOne]

theorem readAt_natCast (t : List ℚ) (n : ℕ) : readAt t (n : ℤ) = t[n]? := by
  simp [readAt]

/-- When no later sample exceeds `x`, the loop runs to its end and returns the last value. -/
theorem interpolate_loop_past (w v : List ℚ) (x : ℚ) (n : ℕ) (hw : w.length = n + 1)
    (hv : v.length = n + 1)
    (hge : ∀ j a, w[j + 1]? = some a → ¬ x < a) :
    ∀ fuel i, i ≤ n → n - i < fuel → interpolate_loop w v x n fuel i = v[n]? := by
  intro fuel
  induction fuel with
  | zero => intro i _ h; omega
  | succ fuel ih =>
    intro i hi hf
    rw [interpolate_loop]
    by_cases hlt : i < n
    · have hb : i + 1 < w.length := by omega
      rw [if_pos hlt, List.getElem?_eq_getElem hb, Option.some_bind,
        if_neg (hge i _ (List.getElem?_eq_getElem hb))]
      exact ih (i + 1) (by omega) (by omega)
    · rw [if_neg hlt, hv, sizeMinusOne_succ]

/-- When `k` is the first counter value whose next sample exceeds `x`, the loop returns the
blend of samples `k` and `k + 1`. -/
theorem interpolate_loop_hit (w v : List ℚ) (x : ℚ) (bound k : ℕ) (hk : k < bound)
    (w0 w1 v0 v1 : ℚ) (hw0 : w[k]? = some w0) (hw1 : w[k + 1]? = some w1)
    (hv0 : v[k]? = some v0) (hv1 : v[k + 1]? = some v1) (hx : x < w1)
    (hskip : ∀ j a, j < k → w[j + 1]? = some a → ¬ x < a) :
    ∀ fuel i, i ≤ k → k - i < fuel →
      interpolate_loop w v x bound fuel i =
        some (v0 * (1 - (x - w0) / (w1 - w0)) + v1 * ((x - w0) / (w1 - w0))) := by
  intro fuel
  induction fuel with
  | zero => intro i _ h; omega
  | succ fuel ih =>
    intro i hi hf
    rw [interpolate_loop]
    by_cases hlt : i < k
    · have hlen : k + 1 < w.length := (List.getElem?_eq_some.mp hw1).1
      have hb : i + 1 < w.length := by omega
      rw [if_pos (by omega), List.getElem?_eq_getElem hb, Option.some_bind,
        if_neg (hskip i _ hlt (List.getElem?_eq_getElem hb))]
      exact ih (i + 1) (by omega) (by omega)
    · have hik : i = k := by omega
      subst hik
      rw [if_pos hk, hw1, Option.some_bind, if_pos hx, hw0, Option.some_bind, hv0,
        Option.some_bind, hv1, Option.some_bind]

/-- Every read of `interpolate` is in range, and it returns a value, as soon as the two
tables have the same non-zero length. -/
theorem interpolate_isSome (w v : List ℚ) (hlen : w.length = v.length) (hpos : 0 < w.length)
    (x : ℚ) : ∃ y, interpolate w v x = some y := by
  obtain ⟨n, hn⟩ : ∃ n, w.length = n + 1 := ⟨w.length - 1, by omega⟩
  have hv : v.length = n + 1 := by omega
  unfold interpolate
  rw [List.getElem?_eq_getElem (by omega), Option.some_bind]
  by_cases h0 : x < w[0]
  · rw [if_pos h0, List.getElem?_eq_getElem (by omega)]
    exact ⟨_, rfl⟩
  · have hs : sizeMinusOne w.length = n := by rw [hn, sizeMinusOne_succ]
    rw [if_neg h0, hs]
    by_cases hex : ∃ k, k < n ∧ x < w[k + 1]?.getD 0
    · classical
      have hk := Nat.find_spec hex
      have hmin := fun j (hj : j < Nat.find hex) => Nat.find_min hex hj
      generalize Nat.find hex = k at hk hmin
      have hb : k + 1 < w.length := by omega
      have hb2 : k + 1 < v.length := by omega
      refine ⟨_, interpolate_loop_hit w v x n k hk.1 w[k] w[k + 1] v[k] v[k + 1]
        (List.getElem?_eq_getElem _) (List.getElem?_eq_getElem _)
        (List.getElem?_eq_getElem _) (List.getElem?_eq_getElem _) ?_ ?_ (n + 1) 0
        (Nat.zero_le _) (by omega)⟩
      · simpa [List.getElem?_eq_getElem hb] using hk.2
      · intro j a hj ha hxa
        apply hmin j hj
        refine ⟨by omega, ?_⟩
        simpa [ha] using hxa
    · rw [interpolate_loop_past w v x n hn hv ?_ (n + 1) 0 (Nat.zero_le _) (by omega),
        List.getElem?_eq_getElem (by omega)]
      · exact ⟨_, rfl⟩
      · intro j a ha hxa
        apply hex
        refine ⟨j, ?_, ?_⟩
        · have := (List.getElem?_eq_some.mp ha).1
          omega
        · simpa [ha] using hxa

/-! ## Colour-matching table lookup -/

/-- The range guard: outside the open interval (360, 830) the lookup returns 0 without
reading the table. -/
theorem cie_guard (CIE : List ℚ) (wavelength : ℚ) (column : ℤ)
    (h : wavelength ≤ 360 ∨ wavelength ≥ 830) :
    cie_color_matching_function_table_value CIE wavelength column = some 0 := by
  unfold cie_color_matching_function_table_value
  rw [if_pos]
  simpa [kLambdaMin, kLambdaMax] using h

/-- C1: for every wavelength `λ ≤ 360` or `λ ≥ 830` and every column,
`cie_color_matching_function_table_value` returns exactly 0, whatever the table holds
(the table is not read at all). -/
theorem cie_value_zero_outside_range (CIE : List ℚ) (wavelength : ℚ) (column : ℤ)
    (h : wavelength ≤ 360 ∨ wavelength ≥ 830) :
    cie_color_matching_function_table_value CIE wavelength column = some 0 :=
  cie_guard CIE wavelength column h

theorem cie_value_zero_outside_range_witness :
    ((830 : ℚ) ≤ 360 ∨ (830 : ℚ) ≥ 830) ∧
      cie_color_matching_function_table_value (List.replicate 380 1) 830 2 = some 0 :=
  ⟨Or.inr (le_refl _), cie_value_zero_outside_range _ _ _ (Or.inr (le_refl _))⟩

/-- Both rows read at a wavelength strictly inside the range are rows of a 95-row table. -/
theorem cie_row_bounds (wavelength : ℚ) (h1 : 360 < wavelength) (h2 : wavelength < 830) :
    0 ≤ ⌊(wavelength - (kLambdaMin : ℚ)) / 5⌋ ∧ ⌊(wavelength - (kLambdaMin : ℚ)) / 5⌋ ≤ 93 := by
  have hk : ((kLambdaMin : ℤ) : ℚ) = 360 := by simp [kLambdaMin]
  rw [hk]
  constructor
  · apply Int.floor_nonneg.mpr
    apply div_nonneg <;> linarith
  · have : ⌊(wavelength - 360) / 5⌋ < 94 := by
      rw [Int.floor_lt]
      rw [div_lt_iff₀ (by norm_num)]
      push_cast
      linarith
    omega

/-- C2 (as amended): at the sample points `λ = 360 + 5k` with `1 ≤ k ≤ 93` the lookup returns
the tabulated entry `CIE[4k + c]` exactly, for a 380-entry table and a column `c` in
`1..3`; at the two end sample points `k = 0` (360 nm) and `k = 94` (830 nm) the range
guard returns 0 instead. -/
theorem cie_value_at_sample_point (CIE : List ℚ) (hlen : CIE.length = 380) (k : ℕ)
    (c : ℤ) (hc1 : 1 ≤ c) (hc3 : c ≤ 3) :
    (k = 0 ∨ k = 94 →
      cie_color_matching_function_table_value CIE (360 + 5 * (k : ℚ)) c = some 0) ∧
    (1 ≤ k → k ≤ 93 → ∃ e, readAt CIE (4 * (k : ℤ) + c) = some e ∧
      cie_color_matching_function_table_value CIE (360 + 5 * (k : ℚ)) c = some e) := by
  constructor
  · intro h
    apply cie_guard
    rcases h with h | h <;> subst h <;> norm_num
  · intro h1 h93
    obtain ⟨m, rfl⟩ : ∃ m : ℕ, c = (m : ℤ) := ⟨c.toNat, by omega⟩
    have hm : m ≤ 3 := by omega
    have hk1 : (1 : ℚ) ≤ (k : ℚ) := by exact_mod_cast h1
    have hk93 : (k : ℚ) ≤ 93 := by exact_mod_cast h93
    have hu : ((360 : ℚ) + 5 * (k : ℚ) - ((kLambdaMin : ℤ) : ℚ)) / 5 = ((k : ℤ) : ℚ) := by
      simp only [kLambdaMin]
      push_cast
      ring
    have hi : 4 * k + m < CIE.length := by omega
    have hj : 4 * (k + 1) + m < CIE.length := by omega
    have ha : readAt CIE (4 * (k : ℤ) + (m : ℤ)) = some CIE[4 * k + m] := by
      have : (4 * (k : ℤ) + (m : ℤ)) = ((4 * k + m : ℕ) : ℤ) := by push_cast; ring
      rw [this, readAt_natCast, List.getElem?_eq_getElem]
    have hb : readAt CIE (4 * ((k : ℤ) + 1) + (m : ℤ)) = some CIE[4 * (k + 1) + m] := by
      have : (4 * ((k : ℤ) + 1) + (m : ℤ)) = ((4 * (k + 1) + m : ℕ) : ℤ) := by
        push_cast; ring
      rw [this, readAt_natCast, List.getElem?_eq_getElem]
    refine ⟨_, ha, ?_⟩
    unfold cie_color_matching_function_table_value
    rw [if_neg]
    · simp only [hu, Int.floor_intCast, ha, hb, Option.some_bind]
      congr 1
      ring
    · simp only [kLambdaMin, kLambdaMax]
      push_cast
      rintro (h | h) <;> linarith

theorem cie_value_at_sample_point_witness :
    cie_color_matching_function_table_value rampTable (360 + 5 * ((0 : ℕ) : ℚ)) 2 = some 0 ∧
    ∃ e, readAt rampTable (4 * ((1 : ℕ) : ℤ) + 2) = some e ∧
      cie_color_matching_function_table_value rampTable (360 + 5 * ((1 : ℕ) : ℚ)) 2 = some e :=
  ⟨(cie_value_at_sample_point rampTable (by simp [rampTable]) 0 2 (by norm_num)
      (by norm_num)).1 (Or.inl rfl),
   (cie_value_at_sample_point rampTable (by simp [rampTable]) 1 2 (by norm_num)
      (by norm_num)).2 (le_refl 1) (by norm_num)⟩

/-- C2 (counterexample to the claim as stated): on the table whose entry at index `i` is
`i`, the lookup at the sample points 360 nm (`k = 0`) and 830 nm (`k = 94`) returns 0, while
the tabulated entries `CIE[4k + 1]` are 1 and 377. -/
theorem cie_value_at_end_sample_points :
    cie_color_matching_function_table_value rampTable (360 + 5 * ((0 : ℕ) : ℚ)) 1 = some 0 ∧
    readAt rampTable (4 * ((0 : ℕ) : ℤ) + 1) = some 1 ∧
    cie_color_matching_function_table_value rampTable (360 + 5 * ((94 : ℕ) : ℚ)) 1 = some 0 ∧
    readAt rampTable (4 * ((94 : ℕ) : ℤ) + 1) = some 377 := by
  refine ⟨?_, ?_, ?_, ?_⟩
  · norm_num [cie_color_matching_function_table_value, kLambdaMin, kLambdaMax]
  · norm_num [readAt, rampTable, List.getElem?_range]
  · norm_num [cie_color_matching_function_table_value, kLambdaMin, kLambdaMax]
  · norm_num [readAt, rampTable, List.getElem?_range, show Int.toNat 377 = 377 from rfl]

/-! ## Generic interpolation -/

/-- C3: `interpolate` clamps: for an ascending wavelength table `w` of length `n ≥ 1` and a
value table `v` of the same length, the result is `v[0]` for every `λ < w[0]` and `v[n-1]`
for every `λ ≥ w[n-1]`. -/
theorem interpolate_clamps (w v : List ℚ) (hlen : w.length = v.length) (hpos : 0 < w.length)
    (hasc : w.Sorted (· ≤ ·)) (x : ℚ) :
    (x < w[0] → interpolate w v x = some v[0]) ∧
    (w[w.length - 1] ≤ x → interpolate w v x = some v[v.length - 1]) := by
  constructor
  · intro hx
    unfold interpolate
    rw [List.getElem?_eq_getElem hpos, Option.some_bind, if_pos hx,
      List.getElem?_eq_getElem (by omega)]
  · intro hx
    obtain ⟨n, hn⟩ : ∃ n, w.length = n + 1 := ⟨w.length - 1, by omega⟩
    have hv : v.length = n + 1 := by omega
    have hle : ∀ j (hj : j < w.length), w[j] ≤ w[w.length - 1] := by
      intro j hj
      rcases Nat.lt_or_ge j (w.length - 1) with h | h
      · exact List.pairwise_iff_getElem.mp hasc j (w.length - 1) hj (by omega) h
      · have : j = w.length - 1 := by omega
        subst this
        exact le_refl _
    have hs : sizeMinusOne w.length = n := by rw [hn, sizeMinusOne_succ]
    unfold interpolate
    rw [List.getElem?_eq_getElem hpos, Option.some_bind,
      if_neg (not_lt.mpr ((hle 0 hpos).trans hx)), hs,
      interpolate_loop_past w v x n hn hv ?_ (n + 1) 0 (Nat.zero_le _) (by omega),
      List.getElem?_eq_getElem (by omega)]
    · simp [hv]
    · intro j a ha
      obtain ⟨hj, rfl⟩ := List.getElem?_eq_some.mp ha
      exact not_lt.mpr ((hle (j + 1) hj).trans hx)

theorem interpolate_clamps_witness :
    interpolate [0, 10] [10, 20] (-5) = some 10 ∧ interpolate [0, 10] [10, 20] 50 = some 20 :=
  ⟨(interpolate_clamps [0, 10] [10, 20] rfl (by decide) (by simp [List.Sorted]) (-5)).1
      (by norm_num),
   (interpolate_clamps [0, 10] [10, 20] rfl (by decide) (by simp [List.Sorted]) 50).2
      (by norm_num)⟩

/-- C4: for a strictly ascending wavelength table `w` of length `n ≥ 2`, a value table `v` of
the same length, an index `i < n - 1` and `w[i] ≤ λ < w[i+1]`, `interpolate` returns the
linear blend `v[i]·(1-u) + v[i+1]·u` with `u = (λ - w[i]) / (w[i+1] - w[i])`. -/
theorem interpolate_linear (w v : List ℚ) (hlen : w.length = v.length) (h2 : 2 ≤ w.length)
    (hasc : w.Sorted (· < ·)) (i : ℕ) (hi : i + 1 < w.length) (x : ℚ)
    (hlo : w[i] ≤ x) (hhi : x < w[i + 1]) :
    interpolate w v x =
      some (v[i] * (1 - (x - w[i]) / (w[i + 1] - w[i])) +
        v[i + 1] * ((x - w[i]) / (w[i + 1] - w[i]))) := by
  have hmono : ∀ j (hj : j < w.length), j ≤ i → w[j] ≤ w[i] := by
    intro j hj hji
    rcases Nat.lt_or_ge j i with h | h
    · exact le_of_lt (List.pairwise_iff_getElem.mp hasc j i hj (by omega) h)
    · have : j = i := by omega
      subst this
      exact le_refl _
  unfold interpolate
  rw [List.getElem?_eq_getElem (by omega), Option.some_bind,
    if_neg (not_lt.mpr ((hmono 0 (by omega) (Nat.zero_le _)).trans hlo))]
  have hb : i < sizeMinusOne w.length := by
    unfold sizeMinusOne
    rw [if_neg (by omega)]
    omega
  refine interpolate_loop_hit w v x _ i hb w[i] w[i + 1] v[i] v[i + 1]
    (List.getElem?_eq_getElem _) (List.getElem?_eq_getElem _)
    (List.getElem?_eq_getElem _) (List.getElem?_eq_getElem _) hhi ?_ _ 0
    (Nat.zero_le _) (by omega)
  intro j a hj ha
  obtain ⟨hj2, rfl⟩ := List.getElem?_eq_some.mp ha
  exact not_lt.mpr ((hmono (j + 1) hj2 (by omega)).trans hlo)

theorem interpolate_linear_witness :
    interpolate [0, 10] [10, 20] 5 = some 15 := by
  have h := interpolate_linear [0, 10] [10, 20] rfl (by decide) (by simp [List.Sorted]) 0
    (by decide) 5 (by norm_num) (by norm_num)
  norm_num at h
  exact h

/-! ## Spectral sample generation -/

theorem kSolarIrradiance_length : kSolarIrradiance.length = 48 := rfl

theorem kOzoneCrossSection_length : kOzoneCrossSection.length = 48 := rfl

theorem getElem?_eq_some_getD (l : List ℚ) (k : ℕ) (h : k < l.length) :
    l[k]? = some (l.getD k 0) := by
  simp [List.getD, List.getElem?_eq_getElem h]

theorem sample_index (k : ℕ) : (sampleLambda k - kLambdaMin).tdiv 10 = (k : ℤ) := by
  have : sampleLambda k - kLambdaMin = 10 * (k : ℤ) := by
    unfold sampleLambda
    ring
  rw [this, Int.mul_tdiv_cancel_left _ (by norm_num)]

/-- The sample loop, started at the counter value of table index `k` with `r = 48 - k`
iterations to go, terminates and appends the samples `k, …, 47` to the seven tables. -/
theorem init_loop_run (c o : Bool) :
    ∀ r k fuel (s : atmosphere), k + r = 48 → r < fuel →
      init_loop c o fuel (sampleLambda k) s = some (withSamples c o k r s) := by
  intro r
  induction r with
  | zero =>
    intro k fuel s hk hf
    obtain ⟨f, rfl⟩ : ∃ f, fuel = f + 1 := ⟨fuel - 1, by omega⟩
    have hk48 : k = 48 := by omega
    subst hk48
    rw [init_loop, if_neg (by simp [sampleLambda, kLambdaMin, kLambdaMax])]
    simp [withSamples]
  | succ r ih =>
    intro k fuel s hk hf
    obtain ⟨f, rfl⟩ : ∃ f, fuel = f + 1 := ⟨fuel - 1, by omega⟩
    have hle : sampleLambda k ≤ kLambdaMax := by
      simp only [sampleLambda, kLambdaMin, kLambdaMax]
      omega
    have hnext : sampleLambda k + 10 = sampleLambda (k + 1) := by
      simp only [sampleLambda]
      push_cast
      ring
    rw [init_loop, if_pos hle, sample_index, readAt_natCast, readAt_natCast,
      getElem?_eq_some_getD kSolarIrradiance k (by rw [kSolarIrradiance_length]; omega),
      getElem?_eq_some_getD kOzoneCrossSection k (by rw [kOzoneCrossSection_length]; omega)]
    have hirr : (if c = true then some kConstantSolarIrradiance
        else some (kSolarIrradiance.getD k 0)) =
        some (if c = true then kConstantSolarIrradiance else kSolarIrradiance.getD k 0) := by
      split <;> rfl
    have habs : (if o = true then
          (some (kOzoneCrossSection.getD k 0)).bind fun x => some (kMaxOzoneNumberDensity * x)
        else some 0) =
        some (if o = true then kMaxOzoneNumberDensity * kOzoneCrossSection.getD k 0 else 0) := by
      split <;> rfl
    rw [hirr, habs, Option.some_bind, Option.some_bind, hnext,
      ih (k + 1) f _ (by omega) (by omega)]
    simp [withSamples, List.range'_succ]

/-- The result of `init` on any object: it returns `ATMO_NO_ERR`, and the seven tables
and the absorption profile of the object are the previous ones followed by the 48 samples
and the two ozone layers. -/
theorem init_result (n : ℤ) (s : atmosphere) (c o : Bool) :
    ∃ s', init n s c o = some (atmosphere_error_t.ATMO_NO_ERR, s') ∧
      s'.m_wave_lengths = (withSamples c o 0 48 s).m_wave_lengths ∧
      s'.m_solar_irradiance = (withSamples c o 0 48 s).m_solar_irradiance ∧
      s'.m_rayleigh_scattering = (withSamples c o 0 48 s).m_rayleigh_scattering ∧
      s'.m_mie_scattering = (withSamples c o 0 48 s).m_mie_scattering ∧
      s'.m_mie_extinction = (withSamples c o 0 48 s).m_mie_extinction ∧
      s'.m_absorption_extinction = (withSamples c o 0 48 s).m_absorption_extinction ∧
      s'.m_ground_albedo = (withSamples c o 0 48 s).m_ground_albedo ∧
      s'.m_absorption_density = s.m_absorption_density ++
        [DensityProfileLayer.mk 25000.0 0.0 0.0 (round32 (1.0 / 15000.0))
          (round32 (-2.0 / 3.0)),
         DensityProfileLayer.mk 0.0 0.0 0.0 (round32 (-1.0 / 15000.0))
          (round32 (8.0 / 3.0))] := by
  have h0 : sampleLambda 0 = kLambdaMin := by simp [sampleLambda]
  have hf : 48 < ((kLambdaMax - kLambdaMin) / 10).toNat + 2 := by decide
  have hrun : ∀ s0 : atmosphere,
      init_loop c o (((kLambdaMax - kLambdaMin) / 10).toNat + 2) kLambdaMin s0 =
        some (withSamples c o 0 48 s0) := by
    intro s0
    have h := init_loop_run c o 48 0 _ s0 rfl hf
    rwa [h0] at h
  unfold init init_with
  simp only []
  rw [hrun, Option.some_bind]
  by_cases hn : n ≤ 3
  · rw [if_pos hn]
    exact ⟨_, rfl, rfl, rfl, rfl, rfl, rfl, rfl, rfl, by simp [precompute, withSamples]⟩
  · rw [if_neg hn]
    exact ⟨_, rfl, rfl, rfl, rfl, rfl, rfl, rfl, rfl, by simp [withSamples]⟩

/-- C5: after `init(false, true)` on a freshly constructed object each of the seven
per-wavelength tables has exactly 48 entries, and for every `i` in `0..47` the wavelength is
`360 + 10·i` (the last is 830), the solar irradiance is `kSolarIrradiance[i]` and the
absorption extinction is `kMaxOzoneNumberDensity · kOzoneCrossSection[i]`, both table reads
being in range. -/
theorem init_spectral_samples (n : ℤ) :
    ∃ s, init n atmosphere.new false true = some (atmosphere_error_t.ATMO_NO_ERR, s) ∧
      s.m_wave_lengths.length = 48 ∧ s.m_solar_irradiance.length = 48 ∧
      s.m_rayleigh_scattering.length = 48 ∧ s.m_mie_scattering.length = 48 ∧
      s.m_mie_extinction.length = 48 ∧ s.m_absorption_extinction.length = 48 ∧
      s.m_ground_albedo.length = 48 ∧
      s.m_wave_lengths[47]? = some 830 ∧
      ∀ i : Fin 48,
        s.m_wave_lengths[i.val]? = some (360 + 10 * (i.val : ℚ)) ∧
        (∃ e, kSolarIrradiance[i.val]? = some e ∧ s.m_solar_irradiance[i.val]? = some e) ∧
        (∃ x, kOzoneCrossSection[i.val]? = some x ∧
          s.m_absorption_extinction[i.val]? = some (kMaxOzoneNumberDensity * x)) := by
  obtain ⟨s, hs, h1, h2, h3, h4, h5, h6, h7, -⟩ := init_result n atmosphere.new false true
  have hw : ∀ i : ℕ, i < 48 → s.m_wave_lengths[i]? = some (360 + 10 * (i : ℚ)) := by
    intro i hi
    rw [h1]
    simp [withSamples, atmosphere.new, List.getElem?_range', hi, sampleLambda, kLambdaMin]
  refine ⟨s, hs, ?_, ?_, ?_, ?_, ?_, ?_, ?_, ?_, ?_⟩
  · rw [h1]; simp [withSamples, atmosphere.new]
  · rw [h2]; simp [withSamples, atmosphere.new]
  · rw [h3]; simp [withSamples, atmosphere.new]
  · rw [h4]; simp [withSamples, atmosphere.new]
  · rw [h5]; simp [withSamples, atmosphere.new]
  · rw [h6]; simp [withSamples, atmosphere.new]
  · rw [h7]; simp [withSamples, atmosphere.new]
  · rw [hw 47 (by norm_num)]; norm_num
  · intro i
    have hi : i.val < 48 := i.isLt
    refine ⟨hw i.val hi, ⟨kSolarIrradiance.getD i.val 0, ?_, ?_⟩,
      ⟨kOzoneCrossSection.getD i.val 0, ?_, ?_⟩⟩
    · exact getElem?_eq_some_getD _ _ (by rw [kSolarIrradiance_length]; exact hi)
    · rw [h2]
      simp [withSamples, atmosphere.new, List.getElem?_range', hi]
    · exact getElem?_eq_some_getD _ _ (by rw [kOzoneCrossSection_length]; exact hi)
    · rw [h6]
      simp [withSamples, atmosphere.new, List.getElem?_range', hi]

/-- C6: for either value of `use_constant_solar_spectrum`, `init(_, use_ozone = false)`
on any object appends 48 samples whose absorption-extinction coefficient is exactly 0, whatever
their wavelength. -/
theorem init_no_ozone_absorption_zero (n : ℤ) (s : atmosphere)
    (use_constant_solar_spectrum_ : Bool) :
    ∃ s', init n s use_constant_solar_spectrum_ false =
        some (atmosphere_error_t.ATMO_NO_ERR, s') ∧
      s'.m_wave_lengths.length = s.m_wave_lengths.length + 48 ∧
      s'.m_absorption_extinction = s.m_absorption_extinction ++ List.replicate 48 0 := by
  obtain ⟨s', hs, h1, -, -, -, -, h6, -, -⟩ := init_result n s use_constant_solar_spectrum_ false
  refine ⟨s', hs, ?_, ?_⟩
  · rw [h1]; simp [withSamples]
  · rw [h6]
    simp [withSamples, List.map_const']

/-! ## Compute kernel binding -/

/-- C7: with the module lookup as a function from entry-point name to success or failure,
`init_functions` returns `ATMO_NO_ERR` if and only if all six names resolve, and
`ATMO_INIT_FUNC_ERR` if and only if one of them is missing. -/
theorem init_functions_result (self : atmosphere) (m : CUmodule) :
    ((init_functions self m).1 = atmosphere_error_t.ATMO_NO_ERR ↔
      (m "calculate_transmittance").isSome ∧ (m "calculate_direct_irradiance").isSome ∧
      (m "calculate_indirect_irradiance").isSome ∧ (m "calculate_multiple_scattering").isSome ∧
      (m "calculate__scattering_density").isSome ∧ (m "calculate_single_scattering").isSome) ∧
    ((init_functions self m).1 = atmosphere_error_t.ATMO_INIT_FUNC_ERR ↔
      m "calculate_transmittance" = none ∨ m "calculate_direct_irradiance" = none ∨
      m "calculate_indirect_irradiance" = none ∨ m "calculate_multiple_scattering" = none ∨
      m "calculate__scattering_density" = none ∨ m "calculate_single_scattering" = none) := by
  unfold init_functions cuModuleGetFunction
  cases h1 : m "calculate_transmittance" <;> simp only [] <;> [simp; skip]
  cases h2 : m "calculate_direct_irradiance" <;> simp only [] <;> [simp; skip]
  cases h3 : m "calculate_indirect_irradiance" <;> simp only [] <;> [simp; skip]
  cases h4 : m "calculate_multiple_scattering" <;> simp only [] <;> [simp; skip]
  cases h5 : m "calculate__scattering_density" <;> simp only [] <;> [simp; skip]
  cases h6 : m "calculate_single_scattering" <;> simp

/-- C8 (as amended): when `init_functions` returns `ATMO_INIT_FUNC_ERR` there is a first
missing entry point, number `j` in lookup order; every entry point before it resolves and its
handle holds the kernel resolved for it, whatever it held before the call, and the handle of
every entry point after number `j` has the value it had before the call. -/
theorem init_functions_failure_state (self : atmosphere) (m : CUmodule)
    (h : (init_functions self m).1 = atmosphere_error_t.ATMO_INIT_FUNC_ERR) :
    ∃ j, j < 6 ∧ m (entryPoint j) = none ∧
      (∀ i, i < j → m (entryPoint i) ≠ none ∧
        handle (init_functions self m).2 i = m (entryPoint i)) ∧
      (∀ i, j < i → i < 6 → handle (init_functions self m).2 i = handle self i) := by
  revert h
  unfold init_functions cuModuleGetFunction
  cases h1 : m "calculate_transmittance" with
  | none =>
    intro _
    refine ⟨0, by norm_num, h1, fun i hi => absurd hi (Nat.not_lt_zero i), fun i _ hi => ?_⟩
    interval_cases i <;> simp [handle]
  | some f1 =>
  cases h2 : m "calculate_direct_irradiance" with
  | none =>
    intro _
    refine ⟨1, by norm_num, h2, fun i hi => ?_, fun i hi1 hi => ?_⟩
    · interval_cases i
      simp [handle, entryPoint, h1]
    · interval_cases i <;> simp [handle]
  | some f2 =>
  cases h3 : m "calculate_indirect_irradiance" with
  | none =>
    intro _
    refine ⟨2, by norm_num, h3, fun i hi => ?_, fun i hi1 hi => ?_⟩
    · interval_cases i <;> simp [handle, entryPoint, h1, h2]
    · interval_cases i <;> simp [handle]
  | some f3 =>
  cases h4 : m "calculate_multiple_scattering" with
  | none =>
    intro _
    refine ⟨3, by norm_num, h4, fun i hi => ?_, fun i hi1 hi => ?_⟩
    · interval_cases i <;> simp [handle, entryPoint, h1, h2, h3]
    · interval_cases i <;> simp [handle]
  | some f4 =>
  cases h5 : m "calculate__scattering_density" with
  | none =>
    intro _
    refine ⟨4, by norm_num, h5, fun i hi => ?_, fun i hi1 hi => ?_⟩
    · interval_cases i <;> simp [handle, entryPoint, h1, h2, h3, h4]
    · interval_cases i
      simp [handle]
  | some f5 =>
  cases h6 : m "calculate_single_scattering" with
  | none =>
    intro _
    refine ⟨5, by norm_num, h6, fun i hi => ?_, fun i hi1 hi => ?_⟩
    · interval_cases i <;> simp [handle, entryPoint, h1, h2, h3, h4, h5]
    · interval_cases i
  | some f6 =>
    intro h
    simp at h

theorem init_functions_failure_state_witness :
    ∃ j, j < 6 ∧ twoKernelModule (entryPoint j) = none ∧
      (∀ i, i < j → twoKernelModule (entryPoint i) ≠ none ∧
        handle (init_functions atmosphere.new twoKernelModule).2 i =
          twoKernelModule (entryPoint i)) ∧
      (∀ i, j < i → i < 6 →
        handle (init_functions atmosphere.new twoKernelModule).2 i = handle atmosphere.new i) :=
  init_functions_failure_state atmosphere.new twoKernelModule (by decide)

/-- C8 (counterexample to the claim as stated): on a fresh object and a module that exports
only the first two entry points, `init_functions` returns `ATMO_INIT_FUNC_ERR` and yet the
first two handles have changed from unbound to the kernels 7 and 8. -/
theorem init_functions_binds_before_failure :
    (init_functions atmosphere.new twoKernelModule).1 = atmosphere_error_t.ATMO_INIT_FUNC_ERR ∧
    atmosphere.new.transmittance_function = none ∧
    (init_functions atmosphere.new twoKernelModule).2.transmittance_function = some 7 ∧
    atmosphere.new.direct_irradiance_function = none ∧
    (init_functions atmosphere.new twoKernelModule).2.direct_irradiance_function = some 8 := by
  decide

/-! ## Radiance-to-luminance factors -/

theorem interpolate_eq_some (w v : List ℚ) (hlen : w.length = v.length) (hpos : 0 < w.length)
    (x : ℚ) : interpolate w v x = some (interpolateD w v x) := by
  obtain ⟨y, hy⟩ := interpolate_isSome w v hlen hpos x
  simp [interpolateD, hy]

theorem readAt_eq_some (t : List ℚ) (i : ℤ) (h0 : 0 ≤ i) (h : i < t.length) :
    readAt t i = some (xyzD t i) := by
  obtain ⟨n, rfl⟩ : ∃ n : ℕ, i = (n : ℤ) := ⟨i.toNat, by omega⟩
  have hn : n < t.length := by exact_mod_cast h
  simp [xyzD, readAt_natCast, List.getElem?_eq_getElem hn]

/-- On a 380-entry table every lookup with a column in `1..3` stays inside the table. -/
theorem cie_value_eq_some (CIE : List ℚ) (hlen : CIE.length = 380) (x : ℚ) (c : ℤ)
    (hc1 : 1 ≤ c) (hc3 : c ≤ 3) :
    cie_color_matching_function_table_value CIE x c = some (cieD CIE x c) := by
  by_cases hout : x ≤ 360 ∨ x ≥ 830
  · simp [cieD, cie_guard CIE x c hout]
  · have h1 : 360 < x := by
      by_contra h
      exact hout (Or.inl (not_lt.mp h))
    have h2 : x < 830 := by
      by_contra h
      exact hout (Or.inr (not_lt.mp h))
    obtain ⟨hr0, hr93⟩ := cie_row_bounds x h1 h2
    have hg : ¬ (x ≤ ((kLambdaMin : ℤ) : ℚ) ∨ x ≥ ((kLambdaMax : ℤ) : ℚ)) := by
      simpa [kLambdaMin, kLambdaMax] using hout
    obtain ⟨a, ha⟩ : ∃ a, readAt CIE (4 * ⌊(x - ((kLambdaMin : ℤ) : ℚ)) / 5⌋ + c) = some a :=
      ⟨_, readAt_eq_some CIE _ (by omega) (by rw [hlen]; push_cast; omega)⟩
    obtain ⟨b, hb⟩ :
        ∃ b, readAt CIE (4 * (⌊(x - ((kLambdaMin : ℤ) : ℚ)) / 5⌋ + 1) + c) = some b :=
      ⟨_, readAt_eq_some CIE _ (by omega) (by rw [hlen]; push_cast; omega)⟩
    unfold cieD cie_color_matching_function_table_value
    simp only [if_neg hg, ha, hb, Option.some_bind, Option.getD_some]

/-- The value of `coeff` for a channel in `0..2`: the row of the matrix applied to the three
colour-matching values. -/
theorem coeff_eq_some (CIE XYZ : List ℚ) (hcie : CIE.length = 380) (hxyz : XYZ.length = 9)
    (x : ℚ) (c : ℤ) (hc0 : 0 ≤ c) (hc2 : c ≤ 2) :
    coeff CIE XYZ x c = some (coeffD CIE XYZ x c) ∧
    coeffD CIE XYZ x c = xyzD XYZ (c * 3 + 0) * cieD CIE x 1 + xyzD XYZ (c * 3 + 1) * cieD CIE x 2
      + xyzD XYZ (c * 3 + 2) * cieD CIE x 3 := by
  have h : coeff CIE XYZ x c = some (xyzD XYZ (c * 3 + 0) * cieD CIE x 1 +
      xyzD XYZ (c * 3 + 1) * cieD CIE x 2 + xyzD XYZ (c * 3 + 2) * cieD CIE x 3) := by
    unfold coeff
    rw [cie_value_eq_some CIE hcie x 1 (by norm_num) (by norm_num),
      cie_value_eq_some CIE hcie x 2 (by norm_num) (by norm_num),
      cie_value_eq_some CIE hcie x 3 (by norm_num) (by norm_num),
      readAt_eq_some XYZ (c * 3 + 0) (by omega) (by rw [hxyz]; push_cast; omega),
      readAt_eq_some XYZ (c * 3 + 1) (by omega) (by rw [hxyz]; push_cast; omega),
      readAt_eq_some XYZ (c * 3 + 2) (by omega) (by rw [hxyz]; push_cast; omega)]
    rfl
  constructor
  · rw [coeffD, h]
    rfl
  · rw [coeffD, h]
    rfl

/-- The value of `coeff` at the two ends of the range is 0. -/
theorem coeffD_zero_outside_range (CIE XYZ : List ℚ) (hcie : CIE.length = 380)
    (hxyz : XYZ.length = 9) (x : ℚ) (hx : x ≤ 360 ∨ x ≥ 830) (c : ℤ) (hc0 : 0 ≤ c)
    (hc2 : c ≤ 2) : coeffD CIE XYZ x c = 0 := by
  rw [(coeff_eq_some CIE XYZ hcie hxyz x c hc0 hc2).2]
  simp [cieD, cie_guard CIE x _ hx]

/-- The integration loop, started at `lam` with `n = 830 - lam` iterations to go, terminates
and adds the `n` terms for `lam, …, 829` to each running sum. -/
theorem compute_loop_run (CIE XYZ w v : List ℚ) (p : ℤ) (sr sg sb : ℚ)
    (hcie : CIE.length = 380) (hxyz : XYZ.length = 9) (hlen : w.length = v.length)
    (hpos : 0 < w.length) :
    ∀ (n : ℕ) (lam : ℤ) (fuel : ℕ) (k : ℚ × ℚ × ℚ), lam + (n : ℤ) = kLambdaMax → n < fuel →
      compute_spectral_radiance_to_luminance_factors_loop CIE XYZ w v p sr sg sb 1 fuel lam k =
        some
          (k.1 + ∑ j in Finset.range n,
            factorTerm CIE XYZ w v p 0 kLambdaR sr (((lam + (j : ℤ) : ℤ)) : ℚ),
           k.2.1 + ∑ j in Finset.range n,
            factorTerm CIE XYZ w v p 1 kLambdaG sg (((lam + (j : ℤ) : ℤ)) : ℚ),
           k.2.2 + ∑ j in Finset.range n,
            factorTerm CIE XYZ w v p 2 kLambdaB sb (((lam + (j : ℤ) : ℤ)) : ℚ)) := by
  intro n
  induction n with
  | zero =>
    intro lam fuel k hl hf
    obtain ⟨f, rfl⟩ : ∃ f, fuel = f + 1 := ⟨fuel - 1, by omega⟩
    have hge : ¬ lam < kLambdaMax := by
      simp only [Nat.cast_zero, add_zero] at hl
      omega
    rw [compute_spectral_radiance_to_luminance_factors_loop, if_neg hge]
    simp
  | succ n ih =>
    intro lam fuel k hl hf
    obtain ⟨f, rfl⟩ : ∃ f, fuel = f + 1 := ⟨fuel - 1, by omega⟩
    have hlt : lam < kLambdaMax := by
      push_cast at hl
      omega
    have c0 := (coeff_eq_some CIE XYZ hcie hxyz (lam : ℚ) 0 (by norm_num) (by norm_num)).2
    have c1 := (coeff_eq_some CIE XYZ hcie hxyz (lam : ℚ) 1 (by norm_num) (by norm_num)).2
    have c2 := (coeff_eq_some CIE XYZ hcie hxyz (lam : ℚ) 2 (by norm_num) (by norm_num)).2
    norm_num at c0 c1 c2
    rw [compute_spectral_radiance_to_luminance_factors_loop, if_pos hlt,
      cie_value_eq_some CIE hcie _ 1 (by norm_num) (by norm_num),
      cie_value_eq_some CIE hcie _ 2 (by norm_num) (by norm_num),
      cie_value_eq_some CIE hcie _ 3 (by norm_num) (by norm_num),
      readAt_eq_some XYZ 0 (by norm_num) (by rw [hxyz]; norm_num),
      readAt_eq_some XYZ 1 (by norm_num) (by rw [hxyz]; norm_num),
      readAt_eq_some XYZ 2 (by norm_num) (by rw [hxyz]; norm_num),
      readAt_eq_some XYZ 3 (by norm_num) (by rw [hxyz]; norm_num),
      readAt_eq_some XYZ 4 (by norm_num) (by rw [hxyz]; norm_num),
      readAt_eq_some XYZ 5 (by norm_num) (by rw [hxyz]; norm_num),
      readAt_eq_some XYZ 6 (by norm_num) (by rw [hxyz]; norm_num),
      readAt_eq_some XYZ 7 (by norm_num) (by rw [hxyz]; norm_num),
      readAt_eq_some XYZ 8 (by norm_num) (by rw [hxyz]; norm_num),
      interpolate_eq_some w v hlen hpos]
    simp only [Option.some_bind]
    rw [ih (lam + 1) f _ (by push_cast at hl ⊢; omega) (by omega)]
    have hcast : ∀ j : ℕ, lam + 1 + (j : ℤ) = lam + ((j + 1 : ℕ) : ℤ) := by
      intro j
      push_cast
      ring
    simp only [Finset.sum_range_succ', factorTerm, hcast, Nat.cast_zero, add_zero]
    rw [c0, c1, c2]
    refine congrArg some (Prod.ext ?_ (Prod.ext ?_ ?_)) <;> simp only [] <;> ring

/-- The sum over the loop counter values `360, …, 829`, as a sum over the wavelengths. -/
theorem sum_counter_eq_sum_Icc (f : ℚ → ℚ) :
    ∑ j in Finset.range 470, f (((kLambdaMin + (j : ℤ) : ℤ)) : ℚ) =
      ∑ l in Finset.Icc (360 : ℕ) 829, f (l : ℚ) := by
  rw [← Nat.Ico_succ_right, Finset.sum_Ico_eq_sum_range]
  apply Finset.sum_congr rfl
  intro j _
  simp [kLambdaMin]

/-- Adding the wavelength 830 to the range of the sum adds the term at 830. -/
theorem sum_Icc_830 (f : ℚ → ℚ) :
    ∑ l in Finset.Icc (360 : ℕ) 830, f (l : ℚ) =
      ∑ l in Finset.Icc (360 : ℕ) 829, f (l : ℚ) + f 830 := by
  rw [← Nat.Ico_succ_right, ← Nat.Ico_succ_right, Finset.sum_Ico_succ_top (by norm_num)]
  norm_num

/-- The value `compute_spectral_radiance_to_luminance_factors` returns, in terms of the sums
over the loop's own range `360, …, 829`. -/
theorem compute_factors_eq (CIE XYZ : List ℚ) (maxEff : ℚ) (w v : List ℚ) (p : ℤ)
    (hcie : CIE.length = 380) (hxyz : XYZ.length = 9) (hlen : w.length = v.length)
    (hpos : 0 < w.length) :
    compute_spectral_radiance_to_luminance_factors CIE XYZ maxEff w v p = some
      (maxEff * ∑ l in Finset.Icc (360 : ℕ) 829,
        factorTerm CIE XYZ w v p 0 kLambdaR (interpolateD w v kLambdaR) (l : ℚ),
       maxEff * ∑ l in Finset.Icc (360 : ℕ) 829,
        factorTerm CIE XYZ w v p 1 kLambdaG (interpolateD w v kLambdaG) (l : ℚ),
       maxEff * ∑ l in Finset.Icc (360 : ℕ) 829,
        factorTerm CIE XYZ w v p 2 kLambdaB (interpolateD w v kLambdaB) (l : ℚ)) := by
  unfold compute_spectral_radiance_to_luminance_factors
  simp only [interpolate_eq_some w v hlen hpos, Option.some_bind]
  have hfuel : (kLambdaMax - kLambdaMin).toNat + 1 = 471 := by decide
  rw [hfuel, compute_loop_run CIE XYZ w v p _ _ _ hcie hxyz hlen hpos 470 kLambdaMin 471 (0, 0, 0)
    (by decide) (by norm_num), Option.some_bind]
  simp only [sum_counter_eq_sum_Icc
      (factorTerm CIE XYZ w v p 0 kLambdaR (interpolateD w v kLambdaR)),
    sum_counter_eq_sum_Icc (factorTerm CIE XYZ w v p 1 kLambdaG (interpolateD w v kLambdaG)),
    sum_counter_eq_sum_Icc (factorTerm CIE XYZ w v p 2 kLambdaB (interpolateD w v kLambdaB))]
  refine congrArg some (Prod.ext ?_ (Prod.ext ?_ ?_)) <;> simp only [] <;> push_cast <;> ring

/-- C9: for tables of the same non-zero length, a 380-entry CIE table and a 9-entry matrix,
`compute_spectral_radiance_to_luminance_factors` returns, for the channels r, g, b with
reference wavelengths 680, 550, 440 and every integer `λ_power`,
`k_c = MAX_LUMINOUS_EFFICACY · Σ_{λ = 360}^{830} coeff(λ, c) · S(λ) / S(λ_c) · (λ / λ_c)^λ_power`,
where `S` is the value of `interpolate` and `coeff` the value of `coeff`; `coeff` is 0 at 360
and at 830, so the two endpoint terms contribute nothing. -/
theorem compute_factors_formula (CIE XYZ : List ℚ) (maxEff : ℚ) (w v : List ℚ) (p : ℤ)
    (hcie : CIE.length = 380) (hxyz : XYZ.length = 9) (hlen : w.length = v.length)
    (hpos : 0 < w.length) :
    ∃ (cf : ℚ → ℤ → ℚ) (S : ℚ → ℚ),
      (∀ x, coeff CIE XYZ x 0 = some (cf x 0) ∧ coeff CIE XYZ x 1 = some (cf x 1) ∧
        coeff CIE XYZ x 2 = some (cf x 2)) ∧
      (∀ x, interpolate w v x = some (S x)) ∧
      (cf 360 0 = 0 ∧ cf 360 1 = 0 ∧ cf 360 2 = 0 ∧ cf 830 0 = 0 ∧ cf 830 1 = 0 ∧ cf 830 2 = 0) ∧
      compute_spectral_radiance_to_luminance_factors CIE XYZ maxEff w v p = some
        (maxEff * ∑ l in Finset.Icc (360 : ℕ) 830,
          cf l 0 * S l / S 680 * ((l : ℚ) / 680) ^ p,
         maxEff * ∑ l in Finset.Icc (360 : ℕ) 830,
          cf l 1 * S l / S 550 * ((l : ℚ) / 550) ^ p,
         maxEff * ∑ l in Finset.Icc (360 : ℕ) 830,
          cf l 2 * S l / S 440 * ((l : ℚ) / 440) ^ p) := by
  have hz : ∀ (x : ℚ), x ≤ 360 ∨ x ≥ 830 → ∀ c : ℤ, 0 ≤ c → c ≤ 2 → coeffD CIE XYZ x c = 0 :=
    fun x hx c h0 h2 => coeffD_zero_outside_range CIE XYZ hcie hxyz x hx c h0 h2
  have h360 : (360 : ℚ) ≤ 360 ∨ (360 : ℚ) ≥ 830 := Or.inl (le_refl _)
  have h830 : (830 : ℚ) ≤ 360 ∨ (830 : ℚ) ≥ 830 := Or.inr (le_refl _)
  refine ⟨coeffD CIE XYZ, interpolateD w v, fun x => ⟨?_, ?_, ?_⟩,
    interpolate_eq_some w v hlen hpos, ⟨?_, ?_, ?_, ?_, ?_, ?_⟩, ?_⟩
  · exact (coeff_eq_some CIE XYZ hcie hxyz x 0 (by norm_num) (by norm_num)).1
  · exact (coeff_eq_some CIE XYZ hcie hxyz x 1 (by norm_num) (by norm_num)).1
  · exact (coeff_eq_some CIE XYZ hcie hxyz x 2 (by norm_num) (by norm_num)).1
  · exact hz 360 h360 0 (by norm_num) (by norm_num)
  · exact hz 360 h360 1 (by norm_num) (by norm_num)
  · exact hz 360 h360 2 (by norm_num) (by norm_num)
  · exact hz 830 h830 0 (by norm_num) (by norm_num)
  · exact hz 830 h830 1 (by norm_num) (by norm_num)
  · exact hz 830 h830 2 (by norm_num) (by norm_num)
  · rw [compute_factors_eq CIE XYZ maxEff w v p hcie hxyz hlen hpos,
      sum_Icc_830 (fun l => coeffD CIE XYZ l 0 * interpolateD w v l /
        interpolateD w v 680 * (l / 680) ^ p),
      sum_Icc_830 (fun l => coeffD CIE XYZ l 1 * interpolateD w v l /
        interpolateD w v 550 * (l / 550) ^ p),
      sum_Icc_830 (fun l => coeffD CIE XYZ l 2 * interpolateD w v l /
        interpolateD w v 440 * (l / 440) ^ p)]
    simp only [hz 830 h830 0 (by norm_num) (by norm_num),
      hz 830 h830 1 (by norm_num) (by norm_num), hz 830 h830 2 (by norm_num) (by norm_num),
      zero_mul, zero_div, add_zero, factorTerm, kLambdaR, kLambdaG, kLambdaB]

theorem compute_factors_formula_witness :
    ∃ (cf : ℚ → ℤ → ℚ) (S : ℚ → ℚ),
      (∀ x, coeff rampTable sampleXYZ x 0 = some (cf x 0) ∧
        coeff rampTable sampleXYZ x 1 = some (cf x 1) ∧
        coeff rampTable sampleXYZ x 2 = some (cf x 2)) ∧
      (∀ x, interpolate [0, 10] [10, 20] x = some (S x)) ∧
      (cf 360 0 = 0 ∧ cf 360 1 = 0 ∧ cf 360 2 = 0 ∧ cf 830 0 = 0 ∧ cf 830 1 = 0 ∧ cf 830 2 = 0) ∧
      compute_spectral_radiance_to_luminance_factors rampTable sampleXYZ 683 [0, 10] [10, 20]
          (-3) = some
        (683 * ∑ l in Finset.Icc (360 : ℕ) 830,
          cf l 0 * S l / S 680 * ((l : ℚ) / 680) ^ (-3 : ℤ),
         683 * ∑ l in Finset.Icc (360 : ℕ) 830,
          cf l 1 * S l / S 550 * ((l : ℚ) / 550) ^ (-3 : ℤ),
         683 * ∑ l in Finset.Icc (360 : ℕ) 830,
          cf l 2 * S l / S 440 * ((l : ℚ) / 440) ^ (-3 : ℤ)) :=
  compute_factors_formula rampTable sampleXYZ 683 [0, 10] [10, 20] (-3)
    (by simp [rampTable]) (by simp [sampleXYZ]) rfl (by decide)

/-- Over a table of values that are all `c`, every value the loop of `interpolate` can
return is `c`. -/
theorem interpolate_loop_const (w : List ℚ) (n : ℕ) (c x : ℚ) (bound : ℕ) :
    ∀ fuel i y, interpolate_loop w (List.replicate n c) x bound fuel i = some y → y = c := by
  have hmem : ∀ i y, (List.replicate n c)[i]? = some y → y = c :=
    fun i y h => List.eq_of_mem_replicate (List.getElem?_mem h)
  intro fuel
  induction fuel with
  | zero =>
    intro i y h
    simp [interpolate_loop] at h
  | succ fuel ih =>
    intro i y h
    rw [interpolate_loop] at h
    by_cases hlt : i < bound
    · rw [if_pos hlt] at h
      cases hw1 : w[i + 1]? with
      | none => simp [hw1] at h
      | some w1 =>
        rw [hw1, Option.some_bind] at h
        by_cases hx : x < w1
        · rw [if_pos hx] at h
          cases hw0 : w[i]? with
          | none => simp [hw0] at h
          | some w0 =>
            cases hv0 : (List.replicate n c)[i]? with
            | none => simp [hw0, hv0] at h
            | some v0 =>
              cases hv1 : (List.replicate n c)[i + 1]? with
              | none => simp [hw0, hv0, hv1] at h
              | some v1 =>
                rw [hw0, hv0, hv1] at h
                simp only [Option.some_bind, Option.some.injEq] at h
                rw [hmem i v0 hv0, hmem (i + 1) v1 hv1] at h
                rw [← h]
                ring
        · rw [if_neg hx] at h
          exact ih (i + 1) y h
    · rw [if_neg hlt] at h
      exact hmem _ y h

/-- Over a non-empty wavelength table and a value table whose entries are all `c`,
`interpolate` returns `c` at every wavelength. -/
theorem interpolate_const (w : List ℚ) (hw : w ≠ []) (c x : ℚ) :
    interpolate w (List.replicate w.length c) x = some c := by
  have hpos : 0 < w.length := List.length_pos.mpr hw
  obtain ⟨y, hy⟩ := interpolate_isSome w (List.replicate w.length c) (by simp) hpos x
  have hyc : y = c := by
    have h := hy
    unfold interpolate at h
    rw [List.getElem?_eq_getElem hpos, Option.some_bind] at h
    by_cases h0 : x < w[0]
    · rw [if_pos h0] at h
      exact List.eq_of_mem_replicate (List.getElem?_mem h)
    · rw [if_neg h0] at h
      exact interpolate_loop_const w w.length c x _ _ _ y h
  rw [hy, hyc]

/-- C10 (as amended): evaluated in exact arithmetic, with a solar irradiance table whose
entries all equal one non-zero constant, over any non-empty wavelength table, and
`λ_power = 0`, `compute_spectral_radiance_to_luminance_factors` returns the triple
`k_c = MAX_LUMINOUS_EFFICACY · Σ_{λ = 360}^{829} coeff(λ, c)`, which depends neither on the
wavelength table nor on the constant (so the constants 1 and 1.5 give the same triple). -/
theorem compute_factors_constant_spectrum (CIE XYZ : List ℚ) (maxEff : ℚ)
    (hcie : CIE.length = 380) (hxyz : XYZ.length = 9) :
    ∃ cf : ℚ → ℤ → ℚ,
      (∀ x, coeff CIE XYZ x 0 = some (cf x 0) ∧ coeff CIE XYZ x 1 = some (cf x 1) ∧
        coeff CIE XYZ x 2 = some (cf x 2)) ∧
      ∀ (w : List ℚ) (c : ℚ), w ≠ [] → c ≠ 0 →
        compute_spectral_radiance_to_luminance_factors CIE XYZ maxEff w
            (List.replicate w.length c) 0 = some
          (maxEff * ∑ l in Finset.Icc (360 : ℕ) 829, cf l 0,
           maxEff * ∑ l in Finset.Icc (360 : ℕ) 829, cf l 1,
           maxEff * ∑ l in Finset.Icc (360 : ℕ) 829, cf l 2) := by
  refine ⟨coeffD CIE XYZ, fun x => ⟨?_, ?_, ?_⟩, ?_⟩
  · exact (coeff_eq_some CIE XYZ hcie hxyz x 0 (by norm_num) (by norm_num)).1
  · exact (coeff_eq_some CIE XYZ hcie hxyz x 1 (by norm_num) (by norm_num)).1
  · exact (coeff_eq_some CIE XYZ hcie hxyz x 2 (by norm_num) (by norm_num)).1
  · intro w c hw hc
    have hS : ∀ x, interpolateD w (List.replicate w.length c) x = c := by
      intro x
      simp [interpolateD, interpolate_const w hw c x]
    have hterm : ∀ (ch : ℤ) (ref l : ℚ),
        factorTerm CIE XYZ w (List.replicate w.length c) 0 ch ref c l = coeffD CIE XYZ l ch := by
      intro ch ref l
      simp only [factorTerm, hS, zpow_zero, mul_one]
      field_simp
    rw [compute_factors_eq CIE XYZ maxEff w _ 0 hcie hxyz (by simp) (List.length_pos.mpr hw)]
    simp only [hS, hterm]

theorem compute_factors_constant_spectrum_witness :
    ∃ cf : ℚ → ℤ → ℚ,
      (∀ x, coeff rampTable sampleXYZ x 0 = some (cf x 0) ∧
        coeff rampTable sampleXYZ x 1 = some (cf x 1) ∧
        coeff rampTable sampleXYZ x 2 = some (cf x 2)) ∧
      compute_spectral_radiance_to_luminance_factors rampTable sampleXYZ 683 [360, 830]
          (List.replicate [(360 : ℚ), 830].length 1) 0 = some
        (683 * ∑ l in Finset.Icc (360 : ℕ) 829, cf l 0,
         683 * ∑ l in Finset.Icc (360 : ℕ) 829, cf l 1,
         683 * ∑ l in Finset.Icc (360 : ℕ) 829, cf l 2) ∧
      compute_spectral_radiance_to_luminance_factors rampTable sampleXYZ 683 [360, 500, 830]
          (List.replicate [(360 : ℚ), 500, 830].length 1.5) 0 = some
        (683 * ∑ l in Finset.Icc (360 : ℕ) 829, cf l 0,
         683 * ∑ l in Finset.Icc (360 : ℕ) 829, cf l 1,
         683 * ∑ l in Finset.Icc (360 : ℕ) 829, cf l 2) := by
  obtain ⟨cf, h1, h2⟩ := compute_factors_constant_spectrum rampTable sampleXYZ 683
    (by simp [rampTable]) (by simp [sampleXYZ])
  exact ⟨cf, h1, h2 [360, 830] 1 (by simp) (by norm_num), h2 [360, 500, 830] 1.5 (by simp) (by norm_num)⟩

/-! ## Luminance factors of an object -/

/-- C11: `sky_sun_radiance_to_luminance` selects the sky factors by the wavelength count:
when `num_precomputed_wavelengths() > 3` all three are `MAX_LUMINOUS_EFFICACY`, otherwise they
are `compute_spectral_radiance_to_luminance_factors` of the object's wavelength and
solar-irradiance tables with `λ_power = -3`; in both cases the sun factors are the same
function with `λ_power = 0`.  Each component then goes through the narrowing cast. -/
theorem sky_sun_factors (CIE XYZ : List ℚ) (maxEff : ℚ) (narrow : ℚ → ℚ) (n : ℤ)
    (self : atmosphere) (hcie : CIE.length = 380) (hxyz : XYZ.length = 9)
    (hlen : self.m_wave_lengths.length = self.m_solar_irradiance.length)
    (hpos : 0 < self.m_wave_lengths.length) :
    ∃ sun, compute_spectral_radiance_to_luminance_factors CIE XYZ maxEff self.m_wave_lengths
        self.m_solar_irradiance 0 = some sun ∧
      (3 < n → sky_sun_radiance_to_luminance CIE XYZ maxEff narrow n self =
        some ((narrow maxEff, narrow maxEff, narrow maxEff),
              (narrow sun.1, narrow sun.2.1, narrow sun.2.2))) ∧
      (n ≤ 3 → ∃ sky, compute_spectral_radiance_to_luminance_factors CIE XYZ maxEff
          self.m_wave_lengths self.m_solar_irradiance (-3) = some sky ∧
        sky_sun_radiance_to_luminance CIE XYZ maxEff narrow n self =
          some ((narrow sky.1, narrow sky.2.1, narrow sky.2.2),
                (narrow sun.1, narrow sun.2.1, narrow sun.2.2))) := by
  have hsun := compute_factors_eq CIE XYZ maxEff _ _ 0 hcie hxyz hlen hpos
  have hsky := compute_factors_eq CIE XYZ maxEff _ _ (-3) hcie hxyz hlen hpos
  refine ⟨_, hsun, ?_, ?_⟩
  · intro hn
    unfold sky_sun_radiance_to_luminance
    simp only [gt_iff_lt, hn, decide_True, if_true, Option.some_bind, hsun]
  · intro hn
    refine ⟨_, hsky, ?_⟩
    unfold sky_sun_radiance_to_luminance
    have h3 : ¬ 3 < n := not_lt.mpr hn
    simp only [gt_iff_lt, h3, decide_False, Bool.false_eq_true, if_false, Option.some_bind,
      hsun, hsky]

theorem sky_sun_factors_witness :
    (∃ sun, compute_spectral_radiance_to_luminance_factors rampTable sampleXYZ 683 [0, 10]
        [10, 20] 0 = some sun ∧
      sky_sun_radiance_to_luminance rampTable sampleXYZ 683 id 15 twoSampleObject =
        some ((683, 683, 683), (sun.1, sun.2.1, sun.2.2))) ∧
    (∃ sun sky, compute_spectral_radiance_to_luminance_factors rampTable sampleXYZ 683 [0, 10]
        [10, 20] 0 = some sun ∧
      compute_spectral_radiance_to_luminance_factors rampTable sampleXYZ 683 [0, 10]
        [10, 20] (-3) = some sky ∧
      sky_sun_radiance_to_luminance rampTable sampleXYZ 683 id 3 twoSampleObject =
        some ((sky.1, sky.2.1, sky.2.2), (sun.1, sun.2.1, sun.2.2))) := by
  obtain ⟨sun, h1, h2, -⟩ := sky_sun_factors rampTable sampleXYZ 683 id 15 twoSampleObject
    (by simp [rampTable]) (by simp [sampleXYZ]) rfl (by decide)
  obtain ⟨sun', h1', -, h3⟩ := sky_sun_factors rampTable sampleXYZ 683 id 3 twoSampleObject
    (by simp [rampTable]) (by simp [sampleXYZ]) rfl (by decide)
  obtain ⟨sky, h4, h5⟩ := h3 (le_refl 3)
  exact ⟨⟨sun, h1, h2 (by norm_num)⟩, ⟨sun', sky, h1', h4, h5⟩⟩

/-! ## The precompute run started by `init` -/

/-- The sample loop of `init`, run from the first wavelength with the fuel `init` gives it. -/
theorem init_loop_full (c o : Bool) (s0 : atmosphere) :
    init_loop c o (((kLambdaMax - kLambdaMin) / 10).toNat + 2) kLambdaMin s0 =
      some (withSamples c o 0 48 s0) := by
  have hf : 48 < ((kLambdaMax - kLambdaMin) / 10).toNat + 2 := by decide
  have h0 : sampleLambda 0 = kLambdaMin := by simp [sampleLambda]
  have h := init_loop_run c o 48 0 _ s0 rfl hf
  rwa [h0] at h

/-- The calls of `precompute` that `init` records: one call
`precompute(m_texture_buffer, nullptr, nullptr, false, 4)` when the wavelength count is at
most 3, none otherwise. -/
theorem init_log (n : ℤ) (s : atmosphere) (c o : Bool) :
    ∃ s', init n s c o = some (atmosphere_error_t.ATMO_NO_ERR, s') ∧
      s'.precompute_log =
        if n ≤ 3 then s.precompute_log ++ [rgbPrecomputeCall] else s.precompute_log := by
  unfold init init_with
  simp only []
  rw [init_loop_full, Option.some_bind]
  by_cases hn : n ≤ 3
  · rw [if_pos hn, if_pos hn]
    exact ⟨_, rfl, by simp [precompute, withSamples, rgbPrecomputeCall]⟩
  · rw [if_neg hn, if_neg hn]
    exact ⟨_, rfl, by simp [withSamples]⟩

/-- C12 (the code at the failing input): with 15 configured wavelengths, `init` on a fresh
object returns `ATMO_NO_ERR` and has made no call of `precompute` at all, for any value of the
two flags. -/
theorem init_fifteen_wavelengths_no_precompute (c o : Bool) :
    ∃ s, init 15 atmosphere.new c o = some (atmosphere_error_t.ATMO_NO_ERR, s) ∧
      s.precompute_log = [] := by
  obtain ⟨s, hs, hlog⟩ := init_log 15 atmosphere.new c o
  refine ⟨s, hs, ?_⟩
  rw [hlog, if_neg (by norm_num)]
  rfl

/-- C13: when the wavelength count is at most 3, `init` runs `precompute` exactly once:
the call is `precompute(m_texture_buffer, nullptr, nullptr, false, 4)`, with no wavelength
triplet and no luminance-from-radiance accumulator, no blending and 4 scattering orders. -/
theorem init_rgb_single_precompute (n : ℤ) (hn : n ≤ 3) (s : atmosphere) (c o : Bool) :
    ∃ s', init n s c o = some (atmosphere_error_t.ATMO_NO_ERR, s') ∧
      s'.precompute_log = s.precompute_log ++
        [{ buffer := some (TextureBuffer.mk false), lambdas := none,
           luminance_from_radiance := none, blend := false, num_scattering_orders := 4 }] := by
  obtain ⟨s', hs, hlog⟩ := init_log n s c o
  refine ⟨s', hs, ?_⟩
  rw [hlog, if_pos hn]
  rfl

theorem init_rgb_single_precompute_witness :
    ∃ s', init 3 atmosphere.new false true = some (atmosphere_error_t.ATMO_NO_ERR, s') ∧
      s'.precompute_log = atmosphere.new.precompute_log ++
        [{ buffer := some (TextureBuffer.mk false), lambdas := none,
           luminance_from_radiance := none, blend := false, num_scattering_orders := 4 }] :=
  init_rgb_single_precompute 3 (le_refl 3) atmosphere.new false true

/-- C15: for tables of equal length `n`, every read of `interpolate` is in range for every
wavelength if and only if `n ≥ 1`.  For a single-element table the loop bound `size() - 1` is
0, the loop exits at its first test and the result is the single value; for the empty table
the bound wraps to `2^64 - 1` and the first read `wavelengths[0]` is already out of range. -/
theorem interpolate_reads_in_range_iff (w v : List ℚ) (hlen : w.length = v.length) :
    ((∀ x, ∃ y, interpolate w v x = some y) ↔ 1 ≤ w.length) ∧
    (∀ a b x : ℚ, sizeMinusOne [a].length = 0 ∧
      (∀ fuel, interpolate_loop [a] [b] x (sizeMinusOne [a].length) (fuel + 1) 0 = some b) ∧
      interpolate [a] [b] x = some b) ∧
    (∀ x : ℚ, sizeMinusOne ([] : List ℚ).length = 2 ^ 64 - 1 ∧ ([] : List ℚ)[0]? = none ∧
      interpolate [] [] x = none) := by
  refine ⟨⟨fun h => ?_, fun h x => interpolate_isSome w v hlen (by omega) x⟩, ?_, ?_⟩
  · by_contra hn
    have hw : w = [] := List.length_eq_zero.mp (by omega)
    obtain ⟨y, hy⟩ := h 0
    rw [hw] at hy
    simp [interpolate] at hy
  · intro a b x
    refine ⟨rfl, fun fuel => ?_, ?_⟩
    · simp [interpolate_loop, sizeMinusOne]
    · by_cases hx : x < a <;> simp [interpolate, interpolate_loop, sizeMinusOne, hx]
  · intro x
    exact ⟨rfl, rfl, by simp [interpolate]⟩

theorem interpolate_reads_in_range_iff_witness :
    ((∀ x, ∃ y, interpolate [5] [7] x = some y) ↔ 1 ≤ [(5 : ℚ)].length) ∧
    (∀ a b x : ℚ, sizeMinusOne [a].length = 0 ∧
      (∀ fuel, interpolate_loop [a] [b] x (sizeMinusOne [a].length) (fuel + 1) 0 = some b) ∧
      interpolate [a] [b] x = some b) ∧
    (∀ x : ℚ, sizeMinusOne ([] : List ℚ).length = 2 ^ 64 - 1 ∧ ([] : List ℚ)[0]? = none ∧
      interpolate [] [] x = none) :=
  interpolate_reads_in_range_iff [5] [7] rfl

/-- C17 (as amended): for `360 < λ < 830`, a column in `1..3` and a 380-entry table, the row
computed by `cie_color_matching_function_table_value` satisfies `0 ≤ row ≤ 93`, the blend
weight satisfies `0 ≤ u < 1`, both indices `4·row + c` and `4·(row+1) + c` are within
`0..379`, both reads succeed, and the result is the blend `a·(1 - u) + b·u` of the two entries
read. -/
theorem cie_value_in_bounds (CIE : List ℚ) (hlen : CIE.length = 380) (x : ℚ)
    (h1 : 360 < x) (h2 : x < 830) (c : ℤ) (hc1 : 1 ≤ c) (hc3 : c ≤ 3) :
    0 ≤ ⌊(x - 360) / 5⌋ ∧ ⌊(x - 360) / 5⌋ ≤ 93 ∧
    0 ≤ (x - 360) / 5 - (⌊(x - 360) / 5⌋ : ℚ) ∧ (x - 360) / 5 - (⌊(x - 360) / 5⌋ : ℚ) < 1 ∧
    0 ≤ 4 * ⌊(x - 360) / 5⌋ + c ∧ 4 * (⌊(x - 360) / 5⌋ + 1) + c ≤ 379 ∧
    ∃ a b, readAt CIE (4 * ⌊(x - 360) / 5⌋ + c) = some a ∧
      readAt CIE (4 * (⌊(x - 360) / 5⌋ + 1) + c) = some b ∧
      cie_color_matching_function_table_value CIE x c =
        some (a * (1 - ((x - 360) / 5 - (⌊(x - 360) / 5⌋ : ℚ))) +
          b * ((x - 360) / 5 - (⌊(x - 360) / 5⌋ : ℚ))) := by
  have hk : ((kLambdaMin : ℤ) : ℚ) = 360 := by simp [kLambdaMin]
  obtain ⟨hr0, hr93⟩ := cie_row_bounds x h1 h2
  rw [hk] at hr0 hr93
  have hu0 : 0 ≤ (x - 360) / 5 - (⌊(x - 360) / 5⌋ : ℚ) :=
    sub_nonneg.mpr (Int.floor_le _)
  have hu1 : (x - 360) / 5 - (⌊(x - 360) / 5⌋ : ℚ) < 1 := by
    have := Int.lt_floor_add_one ((x - 360) / 5)
    linarith
  obtain ⟨a, ha⟩ : ∃ a, readAt CIE (4 * ⌊(x - 360) / 5⌋ + c) = some a :=
    ⟨_, readAt_eq_some CIE _ (by omega) (by rw [hlen]; push_cast; omega)⟩
  obtain ⟨b, hb⟩ : ∃ b, readAt CIE (4 * (⌊(x - 360) / 5⌋ + 1) + c) = some b :=
    ⟨_, readAt_eq_some CIE _ (by omega) (by rw [hlen]; push_cast; omega)⟩
  have hg : ¬ (x ≤ ((kLambdaMin : ℤ) : ℚ) ∨ x ≥ ((kLambdaMax : ℤ) : ℚ)) := by
    simp only [kLambdaMin, kLambdaMax]
    push_cast
    rintro (h | h) <;> linarith
  refine ⟨hr0, hr93, hu0, hu1, by omega, by omega, a, b, ha, hb, ?_⟩
  unfold cie_color_matching_function_table_value
  rw [if_neg hg]
  simp only [hk, ha, hb, Option.some_bind]

theorem cie_value_in_bounds_witness :
    0 ≤ ⌊((367 : ℚ) - 360) / 5⌋ ∧ ⌊((367 : ℚ) - 360) / 5⌋ ≤ 93 ∧
    0 ≤ ((367 : ℚ) - 360) / 5 - (⌊((367 : ℚ) - 360) / 5⌋ : ℚ) ∧
    ((367 : ℚ) - 360) / 5 - (⌊((367 : ℚ) - 360) / 5⌋ : ℚ) < 1 ∧
    0 ≤ 4 * ⌊((367 : ℚ) - 360) / 5⌋ + 1 ∧ 4 * (⌊((367 : ℚ) - 360) / 5⌋ + 1) + 1 ≤ 379 ∧
    ∃ a b, readAt rampTable (4 * ⌊((367 : ℚ) - 360) / 5⌋ + 1) = some a ∧
      readAt rampTable (4 * (⌊((367 : ℚ) - 360) / 5⌋ + 1) + 1) = some b ∧
      cie_color_matching_function_table_value rampTable 367 1 =
        some (a * (1 - (((367 : ℚ) - 360) / 5 - (⌊((367 : ℚ) - 360) / 5⌋ : ℚ))) +
          b * (((367 : ℚ) - 360) / 5 - (⌊((367 : ℚ) - 360) / 5⌋ : ℚ))) :=
  cie_value_in_bounds rampTable (by simp [rampTable]) 367 (by norm_num) (by norm_num) 1
    (by norm_num) (by norm_num)

/-! ## Interpolation at the samples and under scaling -/

/-- In a strictly ascending table the samples up to index `i` are at most `w[i]`. -/
theorem sorted_le_of_le (w : List ℚ) (hasc : w.Sorted (· < ·)) (j i : ℕ) (hi : i < w.length)
    (hji : j ≤ i) : w[j] ≤ w[i] := by
  rcases Nat.lt_or_ge j i with h | h
  · exact le_of_lt (List.pairwise_iff_getElem.mp hasc j i (by omega) hi h)
  · have hj : j = i := by omega
    subst hj
    exact le_refl _

/-- C18: `interpolate` reproduces its samples: for a strictly ascending wavelength table `w`
of length `n ≥ 1`, a value table `v` of the same length and an index `i < n`,
`interpolate(w, v, w[i]) = v[i]` exactly. -/
theorem interpolate_at_sample (w v : List ℚ) (hlen : w.length = v.length)
    (hasc : w.Sorted (· < ·)) (i : ℕ) (hi : i < w.length) :
    interpolate w v w[i] = some v[i] := by
  have hpos : 0 < w.length := by omega
  have h0 : ¬ w[i] < w[0] := not_lt.mpr (sorted_le_of_le w hasc 0 i hi (Nat.zero_le _))
  obtain ⟨n, hn⟩ : ∃ n, w.length = n + 1 := ⟨w.length - 1, by omega⟩
  have hv : v.length = n + 1 := by omega
  have hs : sizeMinusOne w.length = n := by rw [hn, sizeMinusOne_succ]
  unfold interpolate
  rw [List.getElem?_eq_getElem hpos, Option.some_bind, if_neg h0, hs]
  by_cases hin : i + 1 < w.length
  · have hi2 : i + 1 < v.length := by omega
    have hlt : w[i] < w[i + 1] :=
      List.pairwise_iff_getElem.mp hasc i (i + 1) hi hin (Nat.lt_succ_self i)
    rw [interpolate_loop_hit w v w[i] n i (by omega) w[i] w[i + 1] v[i] v[i + 1]
      (List.getElem?_eq_getElem _) (List.getElem?_eq_getElem _)
      (List.getElem?_eq_getElem _) (List.getElem?_eq_getElem _) hlt ?_ (n + 1) 0
      (Nat.zero_le _) (by omega)]
    · simp
    · intro j a hj ha
      obtain ⟨hj2, rfl⟩ := List.getElem?_eq_some.mp ha
      exact not_lt.mpr (sorted_le_of_le w hasc (j + 1) i hi (by omega))
  · have hin2 : i = n := by omega
    subst hin2
    rw [interpolate_loop_past w v w[i] i hn hv ?_ (i + 1) 0 (Nat.zero_le _) (by omega),
      List.getElem?_eq_getElem (by omega)]
    intro j a ha
    obtain ⟨hj2, rfl⟩ := List.getElem?_eq_some.mp ha
    exact not_lt.mpr (sorted_le_of_le w hasc (j + 1) i hi (by omega))

theorem interpolate_at_sample_witness :
    interpolate [0, 10] [10, 20] 0 = some 10 ∧ interpolate [0, 10] [10, 20] 10 = some 20 :=
  ⟨interpolate_at_sample [0, 10] [10, 20] rfl (by simp [List.Sorted]) 0 (by decide),
   interpolate_at_sample [0, 10] [10, 20] rfl (by simp [List.Sorted]) 1 (by decide)⟩

/-- Scaling the value table by `a` scales every value the loop of `interpolate` returns. -/
theorem interpolate_loop_scale (w v : List ℚ) (a x : ℚ) (bound : ℕ) :
    ∀ fuel i, interpolate_loop w (List.map (fun y => a * y) v) x bound fuel i =
      (interpolate_loop w v x bound fuel i).map fun y => a * y := by
  intro fuel
  induction fuel with
  | zero =>
    intro i
    simp [interpolate_loop]
  | succ fuel ih =>
    intro i
    rw [interpolate_loop, interpolate_loop]
    by_cases hlt : i < bound
    · rw [if_pos hlt, if_pos hlt]
      cases hw1 : w[i + 1]? with
      | none => simp
      | some w1 =>
        simp only [Option.some_bind]
        by_cases hx : x < w1
        · rw [if_pos hx, if_pos hx]
          cases hw0 : w[i]? with
          | none => simp
          | some w0 =>
            simp only [Option.some_bind, List.getElem?_map]
            cases hv0 : v[i]? with
            | none => simp
            | some v0 =>
              cases hv1 : v[i + 1]? with
              | none => simp
              | some v1 =>
                simp only [Option.map_some', Option.some_bind, Option.some.injEq]
                ring
        · rw [if_neg hx, if_neg hx]
          exact ih (i + 1)
    · rw [if_neg hlt, if_neg hlt]
      simp [List.getElem?_map]

/-- Scaling the value table by `a` scales the value of `interpolate`. -/
theorem interpolate_scale (w v : List ℚ) (a x : ℚ) :
    interpolate w (List.map (fun y => a * y) v) x =
      (interpolate w v x).map fun y => a * y := by
  unfold interpolate
  cases hw0 : w[0]? with
  | none => simp
  | some w0 =>
    simp only [Option.some_bind]
    by_cases hx : x < w0
    · rw [if_pos hx, if_pos hx]
      simp [List.getElem?_map]
    · rw [if_neg hx, if_neg hx]
      exact interpolate_loop_scale w v a x _ _ _

/-- C19 (as amended): evaluated in exact arithmetic, the factors depend only on the shape of
the solar spectrum: for a non-empty ascending wavelength table, a solar-irradiance table `s` of
the same length whose interpolated values at 680, 550 and 440 nm are non-zero, a constant
`a ≠ 0` and an integer `λ_power`, `compute_spectral_radiance_to_luminance_factors` returns a
triple, and the same one for `a·s` as for `s`. -/
theorem compute_factors_scale_invariant (CIE XYZ : List ℚ) (maxEff : ℚ) (w s : List ℚ)
    (a : ℚ) (p : ℤ) (hcie : CIE.length = 380) (hxyz : XYZ.length = 9)
    (hlen : w.length = s.length) (hpos : 0 < w.length) (_hasc : w.Sorted (· ≤ ·))
    (_hr : interpolate w s 680 ≠ some 0) (_hg : interpolate w s 550 ≠ some 0)
    (_hb : interpolate w s 440 ≠ some 0) (ha : a ≠ 0) :
    ∃ k, compute_spectral_radiance_to_luminance_factors CIE XYZ maxEff w s p = some k ∧
      compute_spectral_radiance_to_luminance_factors CIE XYZ maxEff w
        (List.map (fun y => a * y) s) p = some k := by
  have hlen2 : w.length = (List.map (fun y => a * y) s).length := by simpa using hlen
  have hS : ∀ x, interpolateD w (List.map (fun y => a * y) s) x = a * interpolateD w s x := by
    intro x
    rw [interpolateD, interpolate_scale, interpolate_eq_some w s hlen hpos x]
    rfl
  have hterm : ∀ (c : ℤ) (ref l : ℚ),
      factorTerm CIE XYZ w (List.map (fun y => a * y) s) p c ref
          (interpolateD w (List.map (fun y => a * y) s) ref) l =
        factorTerm CIE XYZ w s p c ref (interpolateD w s ref) l := by
    intro c ref l
    simp only [factorTerm, hS]
    rw [show coeffD CIE XYZ l c * (a * interpolateD w s l) =
      a * (coeffD CIE XYZ l c * interpolateD w s l) by ring, mul_div_mul_left _ _ ha]
  refine ⟨_, compute_factors_eq CIE XYZ maxEff w s p hcie hxyz hlen hpos, ?_⟩
  rw [compute_factors_eq CIE XYZ maxEff w _ p hcie hxyz hlen2 hpos]
  simp only [hterm]

theorem compute_factors_scale_invariant_witness :
    ∃ k, compute_spectral_radiance_to_luminance_factors rampTable sampleXYZ 683 [0, 10]
        [10, 20] (-3) = some k ∧
      compute_spectral_radiance_to_luminance_factors rampTable sampleXYZ 683 [0, 10]
        (List.map (fun y => 3 * y) [10, 20]) (-3) = some k :=
  compute_factors_scale_invariant rampTable sampleXYZ 683 [0, 10] [10, 20] 3 (-3)
    (by simp [rampTable]) (by simp [sampleXYZ]) rfl (by decide) (by simp [List.Sorted])
    (by norm_num [interpolate, interpolate_loop, sizeMinusOne])
    (by norm_num [interpolate, interpolate_loop, sizeMinusOne])
    (by norm_num [interpolate, interpolate_loop, sizeMinusOne]) (by norm_num)

/-! ## The converter in binary64 arithmetic -/

/-- Zero is representable. -/
theorem round64_zero : round64 0 = 0 := by simp [round64, roundTo]

/-- The rounding function on known values: the double and the float nearest to 1/10, two ties
that go to the even neighbour, a representable number, and a negative number. -/
theorem roundTo_values :
    round64 (1 / 10) = 3602879701896397 / 36028797018963968 ∧
    round32 (1 / 10) = 13421773 / 134217728 ∧
    round64 9007199254740993 = 9007199254740992 ∧
    round64 9007199254740995 = 9007199254740996 ∧
    round64 (3 / 2) = 3 / 2 ∧
    round64 (-(1 / 10)) = -(3602879701896397 / 36028797018963968) := by
  decide!

/-- With no rounding the rounded colour-matching lookup is the exact one. -/
theorem cie_rounded_id (CIE : List ℚ) (wavelength : ℚ) (column : ℤ) :
    cie_color_matching_function_table_value_rounded id CIE wavelength column =
      cie_color_matching_function_table_value CIE wavelength column :=
  rfl

/-- Every entry of the spike table from index 2 on is 0. -/
theorem spikeTable_read (i : ℤ) (h2 : 2 ≤ i) (h : i < 380) : readAt spikeTable i = some 0 := by
  obtain ⟨j, rfl⟩ : ∃ j : ℕ, i = ((j + 2 : ℕ) : ℤ) := ⟨(i - 2).toNat, by omega⟩
  have hj : j < 378 := by omega
  unfold readAt spikeTable
  rw [if_pos (by omega), Int.toNat_ofNat, List.getElem?_cons_succ, List.getElem?_cons_succ,
    List.getElem?_replicate, if_pos hj]

/-- The range guard in rounded arithmetic. -/
theorem cie_rounded_guard (fl : ℚ → ℚ) (CIE : List ℚ) (wavelength : ℚ) (column : ℤ)
    (h : wavelength ≤ 360 ∨ 830 ≤ wavelength) :
    cie_color_matching_function_table_value_rounded fl CIE wavelength column = some 0 := by
  unfold cie_color_matching_function_table_value_rounded
  rw [if_pos]
  simpa [kLambdaMin, kLambdaMax] using h

set_option maxRecDepth 1000000 in
/-- In binary64 the row computed at each integer wavelength 365..829 is in 1..93. -/
theorem spike_rows : ∀ n ∈ List.range' 365 465,
    1 ≤ ⌊round64 (round64 ((((n : ℕ) : ℤ) : ℚ) - ((kLambdaMin : ℤ) : ℚ)) / 5)⌋ ∧
    ⌊round64 (round64 ((((n : ℕ) : ℤ) : ℚ) - ((kLambdaMin : ℤ) : ℚ)) / 5)⌋ ≤ 93 := by
  decide!

/-- In binary64 the colour-matching values of the spike table are 0 at every integer
wavelength from 365 nm on. -/
theorem cie_rounded_spike_zero (l : ℤ) (h1 : 365 ≤ l) (h2 : l < 830) (c : ℤ) (hc1 : 1 ≤ c)
    (hc3 : c ≤ 3) :
    cie_color_matching_function_table_value_rounded round64 spikeTable (l : ℚ) c = some 0 := by
  obtain ⟨n, rfl⟩ : ∃ n : ℕ, l = (n : ℤ) := ⟨l.toNat, by omega⟩
  have hn : n ∈ List.range' 365 465 := by
    rw [List.mem_range'_1]
    omega
  obtain ⟨hr1, hr93⟩ := spike_rows n hn
  have hg : ¬ ((((n : ℕ) : ℤ) : ℚ) ≤ ((kLambdaMin : ℤ) : ℚ) ∨
      (((n : ℕ) : ℤ) : ℚ) ≥ ((kLambdaMax : ℤ) : ℚ)) := by
    rw [not_or]
    constructor
    · rw [not_le]
      exact_mod_cast (show kLambdaMin < (n : ℤ) by simp only [kLambdaMin]; omega)
    · rw [ge_iff_le, not_le]
      exact_mod_cast (show (n : ℤ) < kLambdaMax by simp only [kLambdaMax]; omega)
  unfold cie_color_matching_function_table_value_rounded
  rw [if_neg hg]
  simp only []
  rw [spikeTable_read _ (by omega) (by omega), spikeTable_read _ (by omega) (by omega)]
  simp [round64_zero]

/-- The nine reads of the identity matrix are in range. -/
theorem identityXYZ_read (i : ℤ) (h0 : 0 ≤ i) (h : i < 9) :
    ∃ m, readAt identityXYZ i = some m := by
  obtain ⟨j, rfl⟩ : ∃ j : ℕ, i = (j : ℤ) := ⟨i.toNat, by omega⟩
  have hj : j < 9 := by omega
  interval_cases j <;> exact ⟨_, rfl⟩

/-- Colour-matching values 0 add 0 to a running sum. -/
theorem factor_term_rounded_zero (fl : ℚ → ℚ) (hfl : fl 0 = 0) (i : ℤ) (h0 : 0 ≤ i)
    (h6 : i ≤ 6) (irradiance solar : ℚ) (hs : solar ≠ 0) (lambda : ℤ) (ref : ℚ) (p : ℤ) :
    factor_term_rounded fl identityXYZ i 0 0 0 irradiance solar lambda ref p = some 0 := by
  obtain ⟨m0, e0⟩ := identityXYZ_read i h0 (by omega)
  obtain ⟨m1, e1⟩ := identityXYZ_read (i + 1) (by omega) (by omega)
  obtain ⟨m2, e2⟩ := identityXYZ_read (i + 2) (by omega) (by omega)
  unfold factor_term_rounded
  rw [e0, e1, e2]
  simp [hs, hfl]

/-- Interpolation in a one-sample table returns the sample, without arithmetic. -/
theorem interpolate_rounded_single (fl : ℚ → ℚ) (a b x : ℚ) :
    interpolate_rounded fl [a] [b] x = some b := by
  by_cases hx : x < a <;>
    simp [interpolate_rounded, interpolate_loop_rounded, sizeMinusOne, hx]

/-- An iteration at which the three colour-matching values are 0 leaves the running sums as
they are, when these are representable. -/
theorem factors_step_rounded_zero (fl : ℚ → ℚ) (hfl : fl 0 = 0) (CIE : List ℚ) (a b : ℚ)
    (p : ℤ) (hb : b ≠ 0) (l : ℤ) (k : ℚ × ℚ × ℚ)
    (hx : cie_color_matching_function_table_value_rounded fl CIE (l : ℚ) 1 = some 0)
    (hy : cie_color_matching_function_table_value_rounded fl CIE (l : ℚ) 2 = some 0)
    (hz : cie_color_matching_function_table_value_rounded fl CIE (l : ℚ) 3 = some 0)
    (hk : fl k.1 = k.1 ∧ fl k.2.1 = k.2.1 ∧ fl k.2.2 = k.2.2) :
    factors_step_rounded fl CIE identityXYZ [a] [b] p b b b l k = some k := by
  unfold factors_step_rounded
  rw [hx, hy, hz, interpolate_rounded_single]
  simp only [Option.some_bind]
  rw [factor_term_rounded_zero fl hfl 0 (by norm_num) (by norm_num) b b hb,
    factor_term_rounded_zero fl hfl 3 (by norm_num) (by norm_num) b b hb,
    factor_term_rounded_zero fl hfl 6 (by norm_num) (by norm_num) b b hb]
  simp only [Option.some_bind, add_zero, hk.1, hk.2.1, hk.2.2]

/-- One iteration of the rounded loop. -/
theorem factors_loop_rounded_succ (fl : ℚ → ℚ) (CIE XYZ w s : List ℚ) (p : ℤ)
    (sr sg sb : ℚ) (d : ℤ) (fuel : ℕ) (l : ℤ) (k : ℚ × ℚ × ℚ) (h : l < 830) :
    factors_loop_rounded fl CIE XYZ w s p sr sg sb d (fuel + 1) l k =
      (factors_step_rounded fl CIE XYZ w s p sr sg sb l k).bind
        (factors_loop_rounded fl CIE XYZ w s p sr sg sb d fuel (l + d)) := by
  rw [factors_loop_rounded, if_pos (by simpa [kLambdaMax] using h)]

/-- From 365 nm on the spike table contributes nothing: the loop returns the sums it has. -/
theorem factors_loop_rounded_spike_tail (a b : ℚ) (hb : b ≠ 0) (p : ℤ) (k : ℚ × ℚ × ℚ)
    (hk : round64 k.1 = k.1 ∧ round64 k.2.1 = k.2.1 ∧ round64 k.2.2 = k.2.2) :
    ∀ (fuel : ℕ) (l : ℤ), 365 ≤ l → (830 - l).toNat < fuel →
      factors_loop_rounded round64 spikeTable identityXYZ [a] [b] p b b b 1 fuel l k =
        some k := by
  intro fuel
  induction fuel with
  | zero => intro l _ h; exact absurd h (Nat.not_lt_zero _)
  | succ fuel ih =>
    intro l hl hf
    by_cases h : l < 830
    · rw [factors_loop_rounded_succ _ _ _ _ _ _ _ _ _ _ _ _ _ h,
        factors_step_rounded_zero round64 round64_zero spikeTable a b p hb l k
          (cie_rounded_spike_zero l hl h 1 (by norm_num) (by norm_num))
          (cie_rounded_spike_zero l hl h 2 (by norm_num) (by norm_num))
          (cie_rounded_spike_zero l hl h 3 (by norm_num) (by norm_num)) hk,
        Option.some_bind]
      exact ih (l + 1) (by omega) (by omega)
    · rw [factors_loop_rounded, if_neg (by simpa [kLambdaMax] using h)]

set_option maxRecDepth 100000 in
/-- The four contributing iterations 361..364 in binary64, for the constant irradiance 1. -/
theorem spike_steps_one :
    factors_step_rounded round64 spikeTable identityXYZ [500] [1] 0 1 1 1 361 (0, 0, 0) =
      some (3602879701896397 / 4503599627370496, 0, 0) ∧
    factors_step_rounded round64 spikeTable identityXYZ [500] [1] 0 1 1 1 362
        (3602879701896397 / 4503599627370496, 0, 0) =
      some (3152519739159347 / 2251799813685248, 0, 0) ∧
    factors_step_rounded round64 spikeTable identityXYZ [500] [1] 0 1 1 1 363
        (3152519739159347 / 2251799813685248, 0, 0) =
      some (2026619832316723 / 1125899906842624, 0, 0) ∧
    factors_step_rounded round64 spikeTable identityXYZ [500] [1] 0 1 1 1 364
        (2026619832316723 / 1125899906842624, 0, 0) =
      some (9007199254740991 / 4503599627370496, 0, 0) ∧
    round64 (9007199254740991 / 4503599627370496) = 9007199254740991 / 4503599627370496 ∧
    round64 (9007199254740991 / 4503599627370496 * round64 (1 * ((1 : ℤ) : ℚ))) =
      9007199254740991 / 4503599627370496 := by
  decide!

set_option maxRecDepth 100000 in
/-- The four contributing iterations 361..364 in binary64, for the constant irradiance
1.5. -/
theorem spike_steps_three_halves :
    factors_step_rounded round64 spikeTable identityXYZ [500] [3 / 2] 0 (3 / 2) (3 / 2) (3 / 2)
        361 (0, 0, 0) =
      some (7205759403792795 / 9007199254740992, 0, 0) ∧
    factors_step_rounded round64 spikeTable identityXYZ [500] [3 / 2] 0 (3 / 2) (3 / 2) (3 / 2)
        362 (7205759403792795 / 9007199254740992, 0, 0) =
      some (6305039478318695 / 4503599627370496, 0, 0) ∧
    factors_step_rounded round64 spikeTable identityXYZ [500] [3 / 2] 0 (3 / 2) (3 / 2) (3 / 2)
        363 (6305039478318695 / 4503599627370496, 0, 0) =
      some (4053239664633447 / 2251799813685248, 0, 0) ∧
    factors_step_rounded round64 spikeTable identityXYZ [500] [3 / 2] 0 (3 / 2) (3 / 2) (3 / 2)
        364 (4053239664633447 / 2251799813685248, 0, 0) =
      some (2, 0, 0) ∧
    round64 2 = 2 ∧ round64 (2 * round64 (1 * ((1 : ℤ) : ℚ))) = 2 := by
  decide!

/-- The rounded computation on the spike table with a single-sample spectrum `[b]`, given the
sums after the four contributing iterations 361..364. -/
theorem compute_rounded_spike (b : ℚ) (hb : b ≠ 0) (k1 k2 k3 k4 : ℚ)
    (h1 : factors_step_rounded round64 spikeTable identityXYZ [500] [b] 0 b b b 361 (0, 0, 0) =
      some (k1, 0, 0))
    (h2 : factors_step_rounded round64 spikeTable identityXYZ [500] [b] 0 b b b 362 (k1, 0, 0) =
      some (k2, 0, 0))
    (h3 : factors_step_rounded round64 spikeTable identityXYZ [500] [b] 0 b b b 363 (k2, 0, 0) =
      some (k3, 0, 0))
    (h4 : factors_step_rounded round64 spikeTable identityXYZ [500] [b] 0 b b b 364 (k3, 0, 0) =
      some (k4, 0, 0))
    (hk : round64 k4 = k4) :
    compute_spectral_radiance_to_luminance_factors_rounded round64 spikeTable identityXYZ 1
      [500] [b] 0 = some (round64 (k4 * round64 (1 * ((1 : ℤ) : ℚ))), 0, 0) := by
  have h0 : factors_step_rounded round64 spikeTable identityXYZ [500] [b] 0 b b b 360 (0, 0, 0) =
      some (0, 0, 0) :=
    factors_step_rounded_zero round64 round64_zero spikeTable 500 b 0 hb 360 (0, 0, 0)
      (cie_rounded_guard _ _ _ _ (Or.inl (by norm_num)))
      (cie_rounded_guard _ _ _ _ (Or.inl (by norm_num)))
      (cie_rounded_guard _ _ _ _ (Or.inl (by norm_num)))
      ⟨round64_zero, round64_zero, round64_zero⟩
  have htail := factors_loop_rounded_spike_tail 500 b hb 0 (k4, 0, 0)
    ⟨hk, round64_zero, round64_zero⟩ 466 365 (by norm_num) (by decide)
  have hloop : factors_loop_rounded round64 spikeTable identityXYZ [500] [b] 0 b b b 1
      ((kLambdaMax - kLambdaMin).toNat + 1) kLambdaMin (0, 0, 0) = some (k4, 0, 0) := by
    have hf : (kLambdaMax - kLambdaMin).toNat + 1 = 470 + 1 := by decide
    rw [hf, show kLambdaMin = 360 from rfl,
      factors_loop_rounded_succ _ _ _ _ _ _ _ _ _ _ _ _ _ (by norm_num), h0, Option.some_bind,
      show (360 : ℤ) + 1 = 361 from rfl, show (470 : ℕ) = 469 + 1 from rfl,
      factors_loop_rounded_succ _ _ _ _ _ _ _ _ _ _ _ _ _ (by norm_num), h1, Option.some_bind,
      show (361 : ℤ) + 1 = 362 from rfl, show (469 : ℕ) = 468 + 1 from rfl,
      factors_loop_rounded_succ _ _ _ _ _ _ _ _ _ _ _ _ _ (by norm_num), h2, Option.some_bind,
      show (362 : ℤ) + 1 = 363 from rfl, show (468 : ℕ) = 467 + 1 from rfl,
      factors_loop_rounded_succ _ _ _ _ _ _ _ _ _ _ _ _ _ (by norm_num), h3, Option.some_bind,
      show (363 : ℤ) + 1 = 364 from rfl, show (467 : ℕ) = 466 + 1 from rfl,
      factors_loop_rounded_succ _ _ _ _ _ _ _ _ _ _ _ _ _ (by norm_num), h4, Option.some_bind,
      show (364 : ℤ) + 1 = 365 from rfl]
    exact htail
  unfold compute_spectral_radiance_to_luminance_factors_rounded
  simp only [interpolate_rounded_single, Option.some_bind]
  rw [hloop]
  simp [round64_zero]

/-- The binary64 result on the spike table for the constant irradiance 1. -/
theorem compute_rounded_spike_one :
    compute_spectral_radiance_to_luminance_factors_rounded round64 spikeTable identityXYZ 1
      [500] [1] 0 = some (9007199254740991 / 4503599627370496, 0, 0) := by
  obtain ⟨h1, h2, h3, h4, hk, hf⟩ := spike_steps_one
  rw [compute_rounded_spike 1 one_ne_zero _ _ _ _ h1 h2 h3 h4 hk, hf]

/-- The binary64 result on the spike table for the constant irradiance 1.5. -/
theorem compute_rounded_spike_three_halves :
    compute_spectral_radiance_to_luminance_factors_rounded round64 spikeTable identityXYZ 1
      [500] [3 / 2] 0 = some (2, 0, 0) := by
  obtain ⟨h1, h2, h3, h4, hk, hf⟩ := spike_steps_three_halves
  rw [compute_rounded_spike (3 / 2) (by norm_num) _ _ _ _ h1 h2 h3 h4 hk, hf]


/-- C17 (counterexample to the claim as stated): in binary64, at 361 nm on a table whose
entries are all 1.5, the row is 0, the two entries read (indices 1 and 5) are both 1.5, and
the result is `1.5 + 2^-52`, above both of them. -/
theorem cie_value_rounded_above_entries :
    ⌊round64 (round64 ((361 : ℚ) - (kLambdaMin : ℚ)) / 5)⌋ = 0 ∧
    readAt (List.replicate 380 (3 / 2)) (4 * 0 + 1) = some (3 / 2) ∧
    readAt (List.replicate 380 (3 / 2)) (4 * (0 + 1) + 1) = some (3 / 2) ∧
    cie_color_matching_function_table_value_rounded round64 (List.replicate 380 (3 / 2)) 361 1 =
      some (6755399441055745 / 4503599627370496) ∧
    max (3 / 2 : ℚ) (3 / 2) < 6755399441055745 / 4503599627370496 := by
  decide!

/-- C10 (counterexample to the claim as stated): in binary64, with the spike table as the
colour-matching table, the identity matrix, luminous efficacy 1, the one-sample wavelength
table `[500]` and `λ_power = 0`, the constant irradiance 1 gives `k_r = 2 - 2^-52` and the
constant irradiance 1.5 gives `k_r = 2`: the triple depends on the constant. -/
theorem compute_factors_constant_spectrum_rounded :
    compute_spectral_radiance_to_luminance_factors_rounded round64 spikeTable identityXYZ 1
        [500] (List.replicate [(500 : ℚ)].length 1) 0 =
      some (9007199254740991 / 4503599627370496, 0, 0) ∧
    compute_spectral_radiance_to_luminance_factors_rounded round64 spikeTable identityXYZ 1
        [500] (List.replicate [(500 : ℚ)].length (3 / 2)) 0 = some (2, 0, 0) ∧
    (9007199254740991 / 4503599627370496 : ℚ) ≠ 2 :=
  ⟨compute_rounded_spike_one, compute_rounded_spike_three_halves, by norm_num⟩

/-- C19 (counterexample to the claim as stated): in binary64, with the spike table, the
identity matrix, luminous efficacy 1, the wavelength table `[500]` and `λ_power = 0`, the
spectrum `s = [1]` (interpolated value 1 at 680, 550 and 440 nm) gives `k_r = 2 - 2^-52` and
the scaled spectrum `1.5·s` gives `k_r = 2`. -/
theorem compute_factors_scale_rounded :
    interpolate_rounded round64 [500] [1] 680 = some 1 ∧
    interpolate_rounded round64 [500] [1] 550 = some 1 ∧
    interpolate_rounded round64 [500] [1] 440 = some 1 ∧
    compute_spectral_radiance_to_luminance_factors_rounded round64 spikeTable identityXYZ 1
        [500] [1] 0 = some (9007199254740991 / 4503599627370496, 0, 0) ∧
    compute_spectral_radiance_to_luminance_factors_rounded round64 spikeTable identityXYZ 1
        [500] (List.map (fun y => 3 / 2 * y) [1]) 0 = some (2, 0, 0) := by
  refine ⟨interpolate_rounded_single _ _ _ _, interpolate_rounded_single _ _ _ _,
    interpolate_rounded_single _ _ _ _, compute_rounded_spike_one, ?_⟩
  rw [show List.map (fun y : ℚ => 3 / 2 * y) [1] = [3 / 2] by norm_num]
  exact compute_rounded_spike_three_halves

/-! ## Repeated initialisation and the ozone layers -/

/-- After any sequence of calls of `init` on an object, every per-wavelength table has grown by
48 entries per call and the absorption profile by 2 layers per call. -/
theorem init_calls_lengths (n : ℤ) :
    ∀ (calls : List (Bool × Bool)) (s : atmosphere),
      ∃ t, init_calls n calls s = some t ∧
        t.m_wave_lengths.length = s.m_wave_lengths.length + 48 * calls.length ∧
        t.m_solar_irradiance.length = s.m_solar_irradiance.length + 48 * calls.length ∧
        t.m_rayleigh_scattering.length = s.m_rayleigh_scattering.length + 48 * calls.length ∧
        t.m_mie_scattering.length = s.m_mie_scattering.length + 48 * calls.length ∧
        t.m_mie_extinction.length = s.m_mie_extinction.length + 48 * calls.length ∧
        t.m_absorption_extinction.length =
          s.m_absorption_extinction.length + 48 * calls.length ∧
        t.m_ground_albedo.length = s.m_ground_albedo.length + 48 * calls.length ∧
        t.m_absorption_density.length = s.m_absorption_density.length + 2 * calls.length := by
  intro calls
  induction calls with
  | nil =>
    intro s
    exact ⟨s, rfl, rfl, rfl, rfl, rfl, rfl, rfl, rfl, rfl⟩
  | cons flags rest ih =>
    intro s
    obtain ⟨s1, hs1, h1, h2, h3, h4, h5, h6, h7, h8⟩ := init_result n s flags.1 flags.2
    obtain ⟨t, ht, g1, g2, g3, g4, g5, g6, g7, g8⟩ := ih s1
    refine ⟨t, ?_, ?_, ?_, ?_, ?_, ?_, ?_, ?_, ?_⟩
    · rw [init_calls, hs1, Option.some_bind]
      exact ht
    · rw [g1, h1]; simp [withSamples]; ring
    · rw [g2, h2]; simp [withSamples]; ring
    · rw [g3, h3]; simp [withSamples]; ring
    · rw [g4, h4]; simp [withSamples]; ring
    · rw [g5, h5]; simp [withSamples]; ring
    · rw [g6, h6]; simp [withSamples]; ring
    · rw [g7, h7]; simp [withSamples]; ring
    · rw [g8, h8]; simp; ring

/-- The wavelength table after two calls of `init` on a fresh object. -/
theorem init_twice_wave_lengths (n : ℤ) (c1 o1 c2 o2 : Bool) :
    ∃ t, init_calls n [(c1, o1), (c2, o2)] atmosphere.new = some t ∧
      t.m_wave_lengths =
        List.map (fun j : ℕ => ((sampleLambda j : ℤ) : ℚ)) (List.range' 0 48) ++
        List.map (fun j : ℕ => ((sampleLambda j : ℤ) : ℚ)) (List.range' 0 48) := by
  obtain ⟨s1, hs1, h1, -⟩ := init_result n atmosphere.new c1 o1
  obtain ⟨s2, hs2, g1, -⟩ := init_result n s1 c2 o2
  refine ⟨s2, ?_, ?_⟩
  · simp [init_calls, hs1, hs2]
  · rw [g1]
    simp only [withSamples]
    rw [h1]
    simp [withSamples, atmosphere.new]

/-- C20: `init` appends rather than replaces: after `k` calls on a fresh object each of the
seven per-wavelength tables has `48·k` entries and the absorption profile `2·k` layers.
After one call the wavelength table is strictly ascending; after a second call it reads
(…, 830, 360, …) at the indices 47 and 48 and is no longer ascending. -/
theorem init_appends (n : ℤ) :
    (∀ calls : List (Bool × Bool), ∃ t, init_calls n calls atmosphere.new = some t ∧
      t.m_wave_lengths.length = 48 * calls.length ∧
      t.m_solar_irradiance.length = 48 * calls.length ∧
      t.m_rayleigh_scattering.length = 48 * calls.length ∧
      t.m_mie_scattering.length = 48 * calls.length ∧
      t.m_mie_extinction.length = 48 * calls.length ∧
      t.m_absorption_extinction.length = 48 * calls.length ∧
      t.m_ground_albedo.length = 48 * calls.length ∧
      t.m_absorption_density.length = 2 * calls.length) ∧
    (∀ c o : Bool, ∃ t, init_calls n [(c, o)] atmosphere.new = some t ∧
      t.m_wave_lengths.Sorted (· < ·)) ∧
    (∀ c1 o1 c2 o2 : Bool, ∃ t, init_calls n [(c1, o1), (c2, o2)] atmosphere.new = some t ∧
      t.m_wave_lengths[47]? = some 830 ∧ t.m_wave_lengths[48]? = some 360 ∧
      ¬ t.m_wave_lengths.Sorted (· ≤ ·)) := by
  refine ⟨fun calls => ?_, fun c o => ?_, fun c1 o1 c2 o2 => ?_⟩
  · obtain ⟨t, ht, h1, h2, h3, h4, h5, h6, h7, h8⟩ := init_calls_lengths n calls atmosphere.new
    refine ⟨t, ht, ?_, ?_, ?_, ?_, ?_, ?_, ?_, ?_⟩
    · rw [h1]; simp [atmosphere.new]
    · rw [h2]; simp [atmosphere.new]
    · rw [h3]; simp [atmosphere.new]
    · rw [h4]; simp [atmosphere.new]
    · rw [h5]; simp [atmosphere.new]
    · rw [h6]; simp [atmosphere.new]
    · rw [h7]; simp [atmosphere.new]
    · rw [h8]; simp [atmosphere.new]
  · obtain ⟨s1, hs1, h1, -⟩ := init_result n atmosphere.new c o
    refine ⟨s1, by simp [init_calls, hs1], ?_⟩
    rw [h1]
    simp only [withSamples, atmosphere.new, List.nil_append]
    rw [List.Sorted, List.pairwise_iff_getElem]
    intro i j hi hj hij
    simp only [List.getElem_map, List.getElem_range', sampleLambda, kLambdaMin]
    have : (360 + 10 * ((0 + 1 * i : ℕ) : ℤ)) < 360 + 10 * ((0 + 1 * j : ℕ) : ℤ) := by
      push_cast
      omega
    exact_mod_cast this
  · obtain ⟨t, ht, hw⟩ := init_twice_wave_lengths n c1 o1 c2 o2
    have h47 : t.m_wave_lengths[47]? = some 830 := by
      rw [hw, List.getElem?_append_left (by simp), List.getElem?_map,
        List.getElem?_range' 0 1 (by norm_num)]
      norm_num [sampleLambda, kLambdaMin]
    have h48 : t.m_wave_lengths[48]? = some 360 := by
      rw [hw, List.getElem?_append_right (by simp), List.getElem?_map]
      simp only [List.length_map, List.length_range', Nat.sub_self]
      rw [List.getElem?_range' 0 1 (by norm_num)]
      norm_num [sampleLambda, kLambdaMin]
    refine ⟨t, ht, h47, h48, ?_⟩
    intro hsorted
    obtain ⟨hi, e47⟩ := List.getElem?_eq_some.mp h47
    obtain ⟨hj, e48⟩ := List.getElem?_eq_some.mp h48
    have hle := List.pairwise_iff_getElem.mp hsorted 47 48 hi hj (by norm_num)
    rw [e47, e48] at hle
    norm_num at hle

/-- The single-precision values of the parameters of the two ozone layers. -/
theorem ozone_parameters_rounded :
    round32 (1.0 / 15000.0) = 9162597 / 137438953472 ∧
    round32 (-2.0 / 3.0) = -11184811 / 16777216 ∧
    round32 (-1.0 / 15000.0) = -9162597 / 137438953472 ∧
    round32 (8.0 / 3.0) = 11184811 / 4194304 := by
  decide!

/-- The absorption profile after `init` on a fresh object. -/
theorem init_ozone_layers (n : ℤ) (c o : Bool) :
    ∃ s, init n atmosphere.new c o = some (atmosphere_error_t.ATMO_NO_ERR, s) ∧
      s.m_absorption_density =
        [DensityProfileLayer.mk 25000 0 0 (9162597 / 137438953472) (-11184811 / 16777216),
         DensityProfileLayer.mk 0 0 0 (-9162597 / 137438953472) (11184811 / 4194304)] := by
  obtain ⟨s, hs, -, -, -, -, -, -, -, hd⟩ := init_result n atmosphere.new c o
  obtain ⟨h1, h2, h3, h4⟩ := ozone_parameters_rounded
  refine ⟨s, hs, ?_⟩
  rw [hd, h1, h2, h3, h4]
  simp only [atmosphere.new, List.nil_append]
  norm_num

/-- C16 (as amended): the single-precision values of `1/15000`, `-2/3` and `8/3` are
9162597/2^37, -11184811/2^24 and 11184811/2^22, and the two ozone layers that `init` pushes on
a fresh object hold them: (25000, 0, 0, 9162597/2^37, -11184811/2^24) below and
(0, 0, 0, -9162597/2^37, 11184811/2^22) above.  Under the density formula of the
specification, evaluated exactly with any exponential function, at the boundary altitude
25000 m the lower layer gives 17179869161/17179869184 (that is 1 - 23/2^34) and the upper
layer gives 1, its value before the clamp, 17179870231/17179869184, being above 1; the linear
term of the lower layer is positive and that of the upper layer is its negation. -/
theorem ozone_layers_contiguous (exp : ℚ → ℚ) (n : ℤ) (c o : Bool) :
    round32 (1 / 15000) = 9162597 / 137438953472 ∧
    round32 (-2 / 3) = -11184811 / 16777216 ∧
    round32 (8 / 3) = 11184811 / 4194304 ∧
    ∃ s lower upper, init n atmosphere.new c o = some (atmosphere_error_t.ATMO_NO_ERR, s) ∧
      s.m_absorption_density = [lower, upper] ∧
      lower = DensityProfileLayer.mk 25000 0 0 (9162597 / 137438953472)
        (-11184811 / 16777216) ∧
      upper = DensityProfileLayer.mk 0 0 0 (-9162597 / 137438953472) (11184811 / 4194304) ∧
      density exp lower lower.width = 17179869161 / 17179869184 ∧
      upper.exp_term * exp (upper.exp_scale * lower.width) + upper.linear_term * lower.width +
        upper.constant_term = 17179870231 / 17179869184 ∧
      density exp upper lower.width = 1 ∧
      0 < lower.linear_term ∧ upper.linear_term = -lower.linear_term := by
  obtain ⟨s, hs, hd⟩ := init_ozone_layers n c o
  refine ⟨by decide!, by decide!, by decide!, s, _, _, hs, hd, rfl, rfl, ?_, ?_, ?_, ?_, ?_⟩
  · norm_num [density]
  · norm_num
  · norm_num [density]
  · norm_num
  · norm_num

/-- C16 (counterexample to the claim as stated): the lower ozone layer that `init` pushes
holds neither the linear term 1/15000 nor the constant term -2/3, and its density at the
boundary altitude 25000 m is 17179869161/17179869184, below 1. -/
theorem ozone_lower_layer_below_one :
    ∃ s lower upper,
      init 3 atmosphere.new false true = some (atmosphere_error_t.ATMO_NO_ERR, s) ∧
      s.m_absorption_density = [lower, upper] ∧
      lower.linear_term ≠ 1 / 15000 ∧ lower.constant_term ≠ -2 / 3 ∧
      density (fun _ => 1) lower 25000 = 17179869161 / 17179869184 ∧
      density (fun _ => 1) lower 25000 < 1 := by
  obtain ⟨s, hs, hd⟩ := init_ozone_layers 3 false true
  refine ⟨s, _, _, hs, hd, ?_, ?_, ?_, ?_⟩
  · norm_num
  · norm_num
  · norm_num [density]
  · norm_num [density]

end Atmosphere
